import Mathlib

/-!
Shallow embedding of the albitros fraud-detection core, translated from the
TypeScript source, together with theorems settling the frozen claims.

Conventions used throughout:
* JS `number` values are modelled as `ℚ` (all arithmetic in the verified code
  paths is exact decimal/rational arithmetic; no transcendental functions occur).
* JS `Set` objects are modelled as `Finset String` (the code only uses
  membership `has` and insertion `add`; iteration order of a `Set` is never
  observed).
* JS `Record<string, T>` objects are modelled as association lists with
  distinct keys.
* Database reads (`prisma.*.findMany` / `findUnique`) are modelled by passing
  the fetched rows in as explicit list/option parameters.
* Record fields that the translated control flow never reads (display strings,
  `details` payloads, diagnosis codes) are omitted from the structures.
-/

set_option maxHeartbeats 1000000

namespace Albitros

/-- Prisma enum `RiskLevel`. -/
inductive RiskLevel where
  | LOW
  | MEDIUM
  | HIGH
  | CRITICAL
deriving DecidableEq, Repr

/-- Prisma enum `FraudType` (the source's `UPDATING` member is its spelling of
upcoding; the spelling is preserved). -/
inductive FraudType where
  | PHANTOM_BILLING
  | UPDATING
  | UNBUNDLING
  | DUPLICATE_CLAIM
  | KICKBACKS
  | UNNECESSARY_SERVICES
  | MISREPRESENTED_SERVICES
  | ORGANIZED_FRAUD
deriving DecidableEq, Repr

namespace Billing

/-! From `albitros/src/lib/billing/codes.ts`. -/

/-- `typicalRange: { min, max }` of a CPT code entry. -/
structure TypicalRange where
  lo : ℚ
  hi : ℚ
deriving DecidableEq, Repr

/-- `bundlingRules` of a CPT code entry; `unbundlingRisk` is the literal
string union `'LOW' | 'MEDIUM' | 'HIGH'`. -/
structure BundlingRules where
  bundledCodes : List String
  unbundlingRisk : String
deriving DecidableEq, Repr

/-- Interface `CPTCode` (fields read by the verified functions). -/
structure CPTCode where
  code : String
  category : String
  baseRate : ℚ
  typicalRange : TypicalRange
  modifierList : List String
  bundlingRules : BundlingRules
deriving DecidableEq, Repr

/-- The constant table `CPT_CODES` as a lookup function: JS indexing
`CPT_CODES[code]` yields `undefined` for absent keys, modelled as `none`. -/
def CPT_CODES (code : String) : Option CPTCode :=
  match code with
  | "99213" => some
      { code := "99213", category := "E&M", baseRate := 75,
        typicalRange := ⟨60, 95⟩, modifierList := ["25", "57", "59"],
        bundlingRules := ⟨[], "LOW"⟩ }
  | "99214" => some
      { code := "99214", category := "E&M", baseRate := 110,
        typicalRange := ⟨95, 130⟩, modifierList := ["25", "57", "59"],
        bundlingRules := ⟨[], "MEDIUM"⟩ }
  | "99215" => some
      { code := "99215", category := "E&M", baseRate := 150,
        typicalRange := ⟨130, 180⟩, modifierList := ["25", "57", "59"],
        bundlingRules := ⟨[], "HIGH"⟩ }
  | "43239" => some
      { code := "43239", category := "ENDOSCOPY", baseRate := 450,
        typicalRange := ⟨400, 550⟩, modifierList := ["25", "59", "78"],
        bundlingRules := ⟨["43235", "43236"], "HIGH"⟩ }
  | "80053" => some
      { code := "80053", category := "LABORATORY", baseRate := 45,
        typicalRange := ⟨35, 60⟩, modifierList := ["91", "59"],
        bundlingRules := ⟨["80048", "80076"], "MEDIUM"⟩ }
  | "71020" => some
      { code := "71020", category := "RADIOLOGY", baseRate := 65,
        typicalRange := ⟨50, 80⟩, modifierList := ["26", "59"],
        bundlingRules := ⟨["71010"], "LOW"⟩ }
  | _ => none

/-- One entry of `HIGH_RISK_COMBINATIONS`. -/
structure HighRiskCombination where
  codes : List String
  riskType : String
  description : String
  riskScore : ℚ
deriving DecidableEq, Repr

/-- The constant table `HIGH_RISK_COMBINATIONS`. -/
def HIGH_RISK_COMBINATIONS : List HighRiskCombination :=
  [ { codes := ["99213", "99214"], riskType := "DUPLICATE_E&M",
      description := "Multiple E&M codes for same encounter", riskScore := 85 },
    { codes := ["43239", "43235", "43236"], riskType := "UNBUNDLING_ENDOSCOPY",
      description := "Unbundling endoscopy procedures", riskScore := 90 },
    { codes := ["80053", "80048"], riskType := "DUPLICATE_LAB",
      description := "Duplicate metabolic panels", riskScore := 75 } ]

/-- `BillingCodeValidator.getBundlingRiskWeight`. -/
def getBundlingRiskWeight (risk : String) : ℚ :=
  if risk = "HIGH" then 40
  else if risk = "MEDIUM" then 25
  else if risk = "LOW" then 10
  else 0

/-- The combination key `[code, bundledCode].sort().join('-')`: JS default
`sort` orders the two strings lexicographically (the character-list
comparison below is exactly the order of `String`'s `<`). -/
def combinationKey (a b : String) : String :=
  if a.data < b.data then a ++ "-" ++ b else b ++ "-" ++ a

/-- Processing of one `bundledCode` inside `checkUnbundlingRisk`'s inner loop:
if the bundled code co-occurs in the submitted set and the (sorted) pair was
not counted yet, add the code's bundling-risk weight and record the pair. -/
def bundleStep (present : Prop) [Decidable present] (key : String) (w : ℚ)
    (st : ℚ × Finset String) : ℚ × Finset String :=
  if present then
    if key ∈ st.2 then st else (st.1 + w, insert key st.2)
  else st

/-- Processing of one submitted `code` inside `checkUnbundlingRisk`'s outer
loop (state = accumulated `riskScore` and `checkedCombinations`). -/
def unbundleStep (codes : List String) (st : ℚ × Finset String) (code : String) :
    ℚ × Finset String :=
  match CPT_CODES code with
  | none => st
  | some cpt =>
    cpt.bundlingRules.bundledCodes.foldl
      (fun st' bundledCode =>
        bundleStep (bundledCode ∈ codes) (combinationKey code bundledCode)
          (getBundlingRiskWeight cpt.bundlingRules.unbundlingRisk) st')
      st

/-- `BillingCodeValidator.checkUnbundlingRisk`. -/
def checkUnbundlingRisk (codes : List String) : ℚ :=
  min (codes.foldl (unbundleStep codes) (0, ∅)).1 100

/-- Return type of `validateCodeCombination`. -/
structure ValidationResult where
  isValid : Bool
  warnings : List String
  riskScore : ℚ
deriving DecidableEq, Repr

/-- `BillingCodeValidator.validateCodeCombination`. -/
def validateCodeCombination (codes : List String) : ValidationResult :=
  let st := HIGH_RISK_COMBINATIONS.foldl
    (fun (st : List String × ℚ) combo =>
      if combo.codes.all (fun code => decide (code ∈ codes)) then
        (st.1 ++ [combo.description], max st.2 combo.riskScore)
      else st)
    ([], 0)
  let unbundlingRisk := checkUnbundlingRisk codes
  let final :=
    if unbundlingRisk > 50 then
      (st.1 ++ ["High unbundling risk detected"], max st.2 unbundlingRisk)
    else st
  { isValid := final.1.isEmpty, warnings := final.1, riskScore := final.2 }

end Billing

namespace Processor

/-! From `src/lib/claims/processor.ts` (`ClaimProcessor`). -/

/-- A `ClaimLineItem` row as created by `processClaim` (diagnosis codes are
never read by the analysis and are omitted). -/
structure LineItem where
  procedureCode : String
  modifier1 : Option String
  modifier2 : Option String
  modifier3 : Option String
  modifier4 : Option String
  units : ℚ
  unitCost : ℚ
  totalCost : ℚ
deriving DecidableEq, Repr

/-- A `Claim` row (fields read by `analyzeClaim` and its helpers).
`serviceDate` and `createdAt` are epoch milliseconds. -/
structure ClaimRec where
  id : String
  providerId : String
  patientId : String
  serviceDate : Int
  billedAmount : ℚ
  createdAt : Int
  isFlagged : Bool
deriving DecidableEq, Repr

/-- A `Provider` row (fields read by `detectPhantomBilling`). -/
structure ProviderRec where
  latitude : Option ℚ
  longitude : Option ℚ
deriving DecidableEq, Repr

/-- Interface `FraudAlert` of `processor.ts` (the `details` payload is never
read downstream and is omitted). Note that this interface has NO `riskScore`
field. -/
structure FraudAlert where
  type : FraudType
  severity : RiskLevel
  confidence : ℚ
  description : String
deriving DecidableEq, Repr

/-- JS property access `alert.riskScore` on a `FraudAlert` value: the
interface declares no such field, so the access evaluates to `undefined`,
modelled as `none`. -/
def FraudAlert.riskScoreField (_ : FraudAlert) : Option ℚ := none

/-- JS comparison `v > 0` where `v` may be `undefined`: `undefined > 0`
evaluates to `false` (the comparison coerces `undefined` to `NaN`). -/
def jsGtZero (v : Option ℚ) : Bool :=
  match v with
  | none => false
  | some a => a > 0

/-- JS truthiness of a nullable number (`null`, `undefined` and `0` are
falsy). -/
def jsTruthyNum (v : Option ℚ) : Bool :=
  match v with
  | none => false
  | some a => a ≠ 0

/-- `ClaimProcessor.determineRiskLevel` (note: thresholds 80/60/40, distinct
from the Risk Scoring Engine's 81/61/31). -/
def determineRiskLevel (score : ℚ) : RiskLevel :=
  if score ≥ 80 then RiskLevel.CRITICAL
  else if score ≥ 60 then RiskLevel.HIGH
  else if score ≥ 40 then RiskLevel.MEDIUM
  else RiskLevel.LOW

/-- `ClaimProcessor.detectUpcoding` (the `claim` parameter is never read and
is omitted). -/
def detectUpcoding (lineItems : List LineItem) : FraudAlert :=
  let highLevelCodes := lineItems.filter
    (fun item => decide (item.procedureCode ∈
      ["99214", "99215", "99205", "99204", "99203"]))
  let s1 : ℚ :=
    if highLevelCodes.length > 0 ∧ highLevelCodes.length = lineItems.length
    then 40 else 0
  let modifier59Abuse := lineItems.filter
    (fun item => item.modifier1 = some "59" || item.modifier2 = some "59")
  let s2 : ℚ := if modifier59Abuse.length > 2 then s1 + 30 else s1
  let timeBasedCodes := lineItems.filter
    (fun item => decide (item.procedureCode ∈ ["99213", "99214", "99215"]))
  let riskScore := timeBasedCodes.foldl
    (fun acc item =>
      match Billing.CPT_CODES item.procedureCode with
      | some cptCode =>
          if item.totalCost > cptCode.typicalRange.hi then acc + 25 else acc
      | none => acc)
    s2
  { type := FraudType.UPDATING,
    severity := determineRiskLevel riskScore,
    confidence := min riskScore 100,
    description := "Potential upcoding detected" }

/-- `ClaimProcessor.detectUnbundling`. -/
def detectUnbundling (lineItems : List LineItem) : FraudAlert :=
  let procedureCodes := lineItems.map (·.procedureCode)
  let validation := Billing.validateCodeCombination procedureCodes
  if validation.riskScore > 50 then
    { type := FraudType.UNBUNDLING,
      severity := determineRiskLevel validation.riskScore,
      confidence := validation.riskScore,
      description := "Potential unbundling of procedures" }
  else
    { type := FraudType.UNBUNDLING, severity := RiskLevel.LOW,
      confidence := 0, description := "No unbundling detected" }

/-- Placeholder `ClaimProcessor.checkGeographicAnomalies` (source returns 0). -/
def checkGeographicAnomalies (_ : ClaimRec) : ℚ := 0

/-- Placeholder `ClaimProcessor.checkTimeConflicts` (source returns 0). -/
def checkTimeConflicts (_ : ClaimRec) : ℚ := 0

/-- `ClaimProcessor.detectPhantomBilling`. -/
def detectPhantomBilling (claim : ClaimRec) (provider : ProviderRec)
    (lineItems : List LineItem) : FraudAlert :=
  let dailyVolume := (lineItems.map (·.units)).sum
  let s1 : ℚ := if dailyVolume > 50 then 60 else 0
  let s2 : ℚ :=
    if jsTruthyNum provider.latitude && jsTruthyNum provider.longitude then
      s1 + checkGeographicAnomalies claim
    else s1
  let timeConflict := checkTimeConflicts claim
  let riskScore := if timeConflict > 40 then s2 + timeConflict else s2
  { type := FraudType.PHANTOM_BILLING,
    severity := determineRiskLevel riskScore,
    confidence := min riskScore 100,
    description := "Potential phantom billing detected" }

/-- The 30-day trailing window in milliseconds. -/
def thirtyDaysMs : Int := 30 * 24 * 60 * 60 * 1000

/-- Predicate of the `prisma.claim.findMany` query inside
`detectDuplicateClaims`: same provider, patient, service date and billed
amount, created within the last 30 days, excluding the claim itself. -/
def duplicateMatch (claim : ClaimRec) (now : Int) (c : ClaimRec) : Bool :=
  c.providerId = claim.providerId &&
  c.patientId = claim.patientId &&
  c.serviceDate = claim.serviceDate &&
  c.billedAmount = claim.billedAmount &&
  c.createdAt ≥ now - thirtyDaysMs &&
  c.id ≠ claim.id

/-- `ClaimProcessor.detectDuplicateClaims`; `db` is the claims table the
query runs over and `now` is `Date.now()`. -/
def detectDuplicateClaims (claim : ClaimRec) (db : List ClaimRec) (now : Int) :
    FraudAlert :=
  let duplicates := db.filter (duplicateMatch claim now)
  if duplicates.length > 0 then
    { type := FraudType.DUPLICATE_CLAIM, severity := RiskLevel.HIGH,
      confidence := 90, description := "Duplicate claim detected" }
  else
    { type := FraudType.DUPLICATE_CLAIM, severity := RiskLevel.LOW,
      confidence := 0, description := "No duplicates found" }

/-- The duplicate condition as the claim states it, spelled out directly:
some other claim of the same provider, patient, service date and billed
amount was created within the trailing 30 days (in milliseconds). -/
def SpecDuplicateExists (claim : ClaimRec) (db : List ClaimRec) (now : Int) :
    Prop :=
  ∃ c ∈ db,
    c.providerId = claim.providerId ∧ c.patientId = claim.patientId ∧
    c.serviceDate = claim.serviceDate ∧ c.billedAmount = claim.billedAmount ∧
    now - 30 * 24 * 60 * 60 * 1000 ≤ c.createdAt ∧ c.id ≠ claim.id

/-- The 90-day lookback window in milliseconds. -/
def ninetyDaysMs : Int := 90 * 24 * 60 * 60 * 1000

/-- `ClaimProcessor.analyzeProviderPatterns`; `providerClaims` are the
provider's claims rows (empty when the provider record is missing). -/
def analyzeProviderPatterns (providerClaims : List ClaimRec) (now : Int) : ℚ :=
  let claims := providerClaims.filter (fun c => c.createdAt ≥ now - ninetyDaysMs)
  if claims.length = 0 then 0
  else
    let flaggedClaims := (claims.filter (·.isFlagged)).length
    let flagRate : ℚ := (flaggedClaims : ℚ) / (claims.length : ℚ)
    if flagRate > 0.3 then 50
    else if flagRate > 0.2 then 30
    else if flagRate > 0.1 then 15
    else 0

/-- Return type of `analyzeClaim` (recommendation strings omitted). -/
structure AnalysisResult where
  riskScore : ℚ
  riskLevel : RiskLevel
  fraudTypes : List FraudType
  alerts : List FraudAlert
  approved : Bool
deriving DecidableEq, Repr

/-- One orchestration stage of `analyzeClaim`: the source pushes the
detector's alert and raises the running maximum only when
`analysis.riskScore > 0` — but the detectors return `FraudAlert` values,
whose interface has no `riskScore` field, so the access yields `undefined`
and the branch is never taken. -/
def accumulateAlert (analysis : FraudAlert) (fraudType : FraudType)
    (st : List FraudAlert × ℚ × List FraudType) :
    List FraudAlert × ℚ × List FraudType :=
  if jsGtZero analysis.riskScoreField then
    (st.1 ++ [analysis], max st.2.1 analysis.confidence, st.2.2 ++ [fraudType])
  else st

/-- `ClaimProcessor.analyzeClaim`: runs the four detectors, folds in the
provider-pattern risk, and applies the auto-approval policy
`totalRiskScore < 30 && alerts.length === 0`. -/
def analyzeClaim (claim : ClaimRec) (provider : ProviderRec)
    (lineItems : List LineItem) (db : List ClaimRec)
    (providerClaims : List ClaimRec) (now : Int) : AnalysisResult :=
  let st0 : List FraudAlert × ℚ × List FraudType := ([], 0, [])
  let st1 := accumulateAlert (detectUpcoding lineItems) FraudType.UPDATING st0
  let st2 := accumulateAlert (detectUnbundling lineItems) FraudType.UNBUNDLING st1
  let st3 := accumulateAlert (detectPhantomBilling claim provider lineItems)
    FraudType.PHANTOM_BILLING st2
  let st4 := accumulateAlert (detectDuplicateClaims claim db now)
    FraudType.DUPLICATE_CLAIM st3
  let providerRisk := analyzeProviderPatterns providerClaims now
  let totalRiskScore := max st4.2.1 providerRisk
  let riskLevel := determineRiskLevel totalRiskScore
  let approved := totalRiskScore < 30 ∧ st4.1.length = 0
  { riskScore := totalRiskScore,
    riskLevel := riskLevel,
    fraudTypes := st4.2.2,
    alerts := st4.1,
    approved := approved }

end Processor

namespace Upcoding

/-! From `src/lib/fraud/upcoding-detector.ts` (`UpcodingDetector`). -/

/-- Interface `UpcodingPattern`. -/
structure UpcodingPattern where
  pattern : String
  description : String
  riskScore : ℚ
  indicators : List String
deriving DecidableEq, Repr

/-- First entry of `UPCODING_PATTERNS`. -/
def patConsistentHighLevel : UpcodingPattern :=
  { pattern := "CONSISTENT_HIGH_LEVEL",
    description := "Provider consistently bills highest level E&M codes",
    riskScore := 75,
    indicators := ["99215_frequency > 0.6", "99205_frequency > 0.6",
      "no_low_level_codes"] }

/-- Second entry of `UPCODING_PATTERNS`. -/
def patTimeDocMismatch : UpcodingPattern :=
  { pattern := "TIME_DOCUMENTATION_MISMATCH",
    description := "Billed time does not match documented complexity",
    riskScore := 80,
    indicators := ["high_code_without_documentation", "time_inflation",
      "complexity_exaggeration"] }

/-- Third entry of `UPCODING_PATTERNS`. -/
def patModifierAbuse : UpcodingPattern :=
  { pattern := "MODIFIER_ABUSE",
    description := "Excessive use of modifiers to increase reimbursement",
    riskScore := 65,
    indicators := ["modifier_59_abuse", "modifier_25_abuse",
      "modifier_57_abuse"] }

/-- Fourth entry of `UPCODING_PATTERNS`. -/
def patSpecialtyDeviation : UpcodingPattern :=
  { pattern := "SPECIALTY_DEVIATION",
    description := "Coding patterns deviate significantly from specialty norms",
    riskScore := 70,
    indicators := ["specialty_benchmark_deviation", "unusual_code_distribution",
      "atypical_procedure_mix"] }

/-- Fifth entry of `UPCODING_PATTERNS`. -/
def patBundlingEvasion : UpcodingPattern :=
  { pattern := "BUNDLING_EVASION",
    description := "Using modifiers to bypass bundling rules",
    riskScore := 85,
    indicators := ["excessive_modifier_59", "procedure_splitting",
      "unbundling_indicators"] }

/-- The constant table `UPCODING_PATTERNS`. -/
def UPCODING_PATTERNS : List UpcodingPattern :=
  [patConsistentHighLevel, patTimeDocMismatch, patModifierAbuse,
   patSpecialtyDeviation, patBundlingEvasion]

/-- A claim as fetched by `getProviderClaims` (only `claimLineItems` is read
by the detector). -/
structure UClaim where
  claimLineItems : List Processor.LineItem
deriving DecidableEq, Repr

/-- Specialty benchmark record of `getSpecialtyBenchmarks`. -/
structure SpecialtyBenchmarks where
  averageCodeLevel : ℚ
  typicalModifiers : List String
  riskFactors : List String
deriving DecidableEq, Repr

/-- Interface `ProviderCodingProfile`; `modifierUsage` is the
`Record<string, number>` histogram as an association list with distinct keys. -/
structure ProviderCodingProfile where
  providerId : String
  averageComplexity : ℚ
  highLevelCodeFrequency : ℚ
  modifierUsage : List (String × ℕ)
  specialtyBenchmarks : SpecialtyBenchmarks
  deviationScore : ℚ
deriving DecidableEq, Repr

/-- The table inside `getSpecialtyBenchmarks`. -/
def specialtyBenchmarksTable (specialty : String) : Option SpecialtyBenchmarks :=
  match specialty with
  | "GENERAL_PRACTICE" => some
      { averageCodeLevel := 3.2, typicalModifiers := ["25", "59"],
        riskFactors := ["HIGH_FREQUENCY_99215", "EXCESSIVE_MODIFIERS"] }
  | "INTERNAL_MEDICINE" => some
      { averageCodeLevel := 3.5, typicalModifiers := ["25", "57"],
        riskFactors := ["COMPLEXITY_INFLATION", "TIME_MISMATCH"] }
  | "CARDIOLOGY" => some
      { averageCodeLevel := 4.0, typicalModifiers := ["26", "59"],
        riskFactors := ["PROCEDURE_UPCODING", "BUNDLING_EVASION"] }
  | "ORTHOPEDICS" => some
      { averageCodeLevel := 3.8, typicalModifiers := ["59", "78"],
        riskFactors := ["SURGICAL_UPCODING", "UNBUNDLING"] }
  | _ => none

/-- `UpcodingDetector.getSpecialtyBenchmarks`
(`benchmarks[specialty] || benchmarks['GENERAL_PRACTICE']`). -/
def getSpecialtyBenchmarks (specialty : String) : SpecialtyBenchmarks :=
  match specialtyBenchmarksTable specialty with
  | some b => b
  | none =>
      { averageCodeLevel := 3.2, typicalModifiers := ["25", "59"],
        riskFactors := ["HIGH_FREQUENCY_99215", "EXCESSIVE_MODIFIERS"] }

/-- The ten E&M codes recognised by `analyzeProviderProfile`. -/
def emCodeList : List String :=
  ["99201", "99202", "99203", "99204", "99205",
   "99211", "99212", "99213", "99214", "99215"]

/-- The `complexityMap` record (`complexityMap[code]` is `undefined` for
absent keys). -/
def complexityMap (code : String) : Option ℕ :=
  match code with
  | "99201" => some 1
  | "99202" => some 2
  | "99203" => some 3
  | "99204" => some 4
  | "99205" => some 5
  | "99211" => some 1
  | "99212" => some 2
  | "99213" => some 3
  | "99214" => some 4
  | "99215" => some 5
  | _ => none

/-- All E&M procedure codes across the provider's claims. -/
def emCodesOf (claims : List UClaim) : List String :=
  claims.flatMap (fun claim =>
    ((claim.claimLineItems.filter
        (fun item => decide (item.procedureCode ∈ emCodeList))).map
      (·.procedureCode)))

/-- The filter predicate of
`emCodes.filter(code => ['99214', '99215', '99204', '99205'].length)` in the
source: the callback returns the constant `4` (the array's `length`), which
is truthy, so EVERY element passes the filter. -/
def highLevelCallback (_ : String) : Bool :=
  (["99214", "99215", "99204", "99205"] : List String).length ≠ 0

/-- All modifier strings across the provider's claims
(`[m1,m2,m3,m4].filter(Boolean)`: `null`/`undefined` and the empty string are
falsy). -/
def allModifiersOf (claims : List UClaim) : List String :=
  claims.flatMap (fun claim =>
    claim.claimLineItems.flatMap (fun item =>
      ([item.modifier1, item.modifier2, item.modifier3,
        item.modifier4].filterMap id).filter (· ≠ "")))

/-- The modifier-usage histogram built by the accumulation loop: one entry
per distinct modifier, mapped to its occurrence count. -/
def buildModifierUsage (mods : List String) : List (String × ℕ) :=
  mods.dedup.map (fun m => (m, mods.count m))

/-- `UpcodingDetector.calculateDeviationScore`. -/
def calculateDeviationScore (avgComplexity highLevelFreq : ℚ)
    (modifierUsage : List (String × ℕ)) (benchmarks : SpecialtyBenchmarks) : ℚ :=
  let complexityDeviation := |avgComplexity - benchmarks.averageCodeLevel| * 20
  let d1 := min complexityDeviation 40
  let d2 := d1 + (if highLevelFreq > 0.4 then (30 : ℚ) else 0)
  let unusualModifiers := (modifierUsage.map Prod.fst).filter
    (fun m => decide (m ∉ benchmarks.typicalModifiers))
  let d3 := d2 + (unusualModifiers.length : ℚ) * 10
  min d3 100

/-- `UpcodingDetector.analyzeProviderProfile`; `specialty` is the provider
row's nullable specialty column (`provider?.specialty || 'GENERAL_PRACTICE'`). -/
def analyzeProviderProfile (providerId : String) (claims : List UClaim)
    (specialty : Option String) : ProviderCodingProfile :=
  let emCodes := emCodesOf claims
  let complexities := emCodes.map (fun code => (complexityMap code).getD 3)
  let averageComplexity : ℚ :=
    if complexities.length > 0 then
      ((complexities.map (fun c => (c : ℚ))).sum) / (complexities.length : ℚ)
    else 3
  let highLevelCodes := emCodes.filter highLevelCallback
  let highLevelFrequency : ℚ :=
    if emCodes.length > 0 then
      (highLevelCodes.length : ℚ) / (emCodes.length : ℚ)
    else 0
  let modifierUsage := buildModifierUsage (allModifiersOf claims)
  let specialtyBenchmarks := getSpecialtyBenchmarks (specialty.getD "GENERAL_PRACTICE")
  let deviationScore := calculateDeviationScore averageComplexity
    highLevelFrequency modifierUsage specialtyBenchmarks
  { providerId := providerId,
    averageComplexity := averageComplexity,
    highLevelCodeFrequency := highLevelFrequency,
    modifierUsage := modifierUsage,
    specialtyBenchmarks := specialtyBenchmarks,
    deviationScore := deviationScore }

/-- Modelled from the spec: `highLevelCodeFrequency` as the spec describes
it — the fraction of the provider's E&M codes at complexity levels 4–5
(codes 99204, 99205, 99214, 99215) out of all E&M codes billed. Used only to
exhibit the divergence of the source's always-true filter callback. -/
def highLevelFrequencySpec (claims : List UClaim) : ℚ :=
  let emCodes := emCodesOf claims
  let highLevel := emCodes.filter
    (fun code => decide (code ∈ ["99214", "99215", "99204", "99205"]))
  if emCodes.length > 0 then
    (highLevel.length : ℚ) / (emCodes.length : ℚ)
  else 0

/-- `UpcodingDetector.checkTimeDocumentationMismatch`. -/
def checkTimeDocumentationMismatch (claims : List UClaim) : Bool :=
  claims.any (fun claim =>
    (claim.claimLineItems.filter (fun item =>
      match Billing.CPT_CODES item.procedureCode with
      | some cptCode => item.totalCost > cptCode.typicalRange.hi * 1.5
      | none => false)).length > 0)

/-- `UpcodingDetector.checkModifierAbuse`. -/
def checkModifierAbuse (modifierUsage : List (String × ℕ)) : Bool :=
  let totalModifiers := (modifierUsage.map Prod.snd).sum
  if totalModifiers = 0 then false
  else
    let modifier59Freq : ℚ :=
      (((modifierUsage.lookup "59").getD 0 : ℕ) : ℚ) / (totalModifiers : ℚ)
    if modifier59Freq > 0.3 then true
    else
      let modifier25Freq : ℚ :=
        (((modifierUsage.lookup "25").getD 0 : ℕ) : ℚ) / (totalModifiers : ℚ)
      if modifier25Freq > 0.4 then true
      else false

/-- `UpcodingDetector.checkBundlingEvasion`. -/
def checkBundlingEvasion (claims : List UClaim) : Bool :=
  claims.any (fun claim =>
    (Billing.validateCodeCombination
      (claim.claimLineItems.map (·.procedureCode))).riskScore > 70)

/-- `UpcodingDetector.evaluatePattern`. -/
def evaluatePattern (pattern : UpcodingPattern) (claims : List UClaim)
    (profile : ProviderCodingProfile) : Bool :=
  if pattern.pattern = "CONSISTENT_HIGH_LEVEL" then
    profile.highLevelCodeFrequency > 0.6 && profile.averageComplexity > 4.2
  else if pattern.pattern = "TIME_DOCUMENTATION_MISMATCH" then
    checkTimeDocumentationMismatch claims
  else if pattern.pattern = "MODIFIER_ABUSE" then
    checkModifierAbuse profile.modifierUsage
  else if pattern.pattern = "SPECIALTY_DEVIATION" then
    profile.deviationScore > 70
  else if pattern.pattern = "BUNDLING_EVASION" then
    checkBundlingEvasion claims
  else false

/-- `UpcodingDetector.detectUpcodingPatterns`. -/
def detectUpcodingPatterns (claims : List UClaim)
    (profile : ProviderCodingProfile) : List UpcodingPattern :=
  UPCODING_PATTERNS.filter (fun p => evaluatePattern p claims profile)

/-- `UpcodingDetector.calculateRiskMetrics`. -/
def calculateRiskMetrics (patterns : List UpcodingPattern) : ℚ × RiskLevel :=
  if patterns.length = 0 then (0, RiskLevel.LOW)
  else
    let totalRiskScore := (patterns.map (·.riskScore)).sum
    let confidence := totalRiskScore / (patterns.length : ℚ)
    let riskLevel :=
      if confidence ≥ 80 then RiskLevel.CRITICAL
      else if confidence ≥ 60 then RiskLevel.HIGH
      else if confidence ≥ 40 then RiskLevel.MEDIUM
      else RiskLevel.LOW
    (confidence, riskLevel)

/-- Return type of `detectUpcoding` (recommendation and audit-trigger strings
omitted). -/
structure UpcodingDetectionResult where
  isUpcoding : Bool
  confidence : ℚ
  riskLevel : RiskLevel
  patterns : List UpcodingPattern
  providerProfile : ProviderCodingProfile
deriving DecidableEq, Repr

/-- `UpcodingDetector.createEmptyResult`. -/
def createEmptyResult (providerId : String) : UpcodingDetectionResult :=
  { isUpcoding := false, confidence := 0, riskLevel := RiskLevel.LOW,
    patterns := [],
    providerProfile :=
      { providerId := providerId, averageComplexity := 0,
        highLevelCodeFrequency := 0, modifierUsage := [],
        specialtyBenchmarks := getSpecialtyBenchmarks "GENERAL_PRACTICE",
        deviationScore := 0 } }

/-- `UpcodingDetector.detectUpcoding`; `claims` are the provider's claims in
the lookback window, `specialty` the provider row's specialty column. -/
def detectUpcoding (providerId : String) (claims : List UClaim)
    (specialty : Option String) : UpcodingDetectionResult :=
  if claims.length = 0 then createEmptyResult providerId
  else
    let providerProfile := analyzeProviderProfile providerId claims specialty
    let detectedPatterns := detectUpcodingPatterns claims providerProfile
    let metrics := calculateRiskMetrics detectedPatterns
    { isUpcoding := metrics.1 > 60,
      confidence := metrics.1,
      riskLevel := metrics.2,
      patterns := detectedPatterns,
      providerProfile := providerProfile }

/-- A profile assembled from fixed base data and a given
`highLevelCodeFrequency`, with `deviationScore` recomputed from that
frequency exactly as `analyzeProviderProfile` derives it. Used to state how
the detection outcome varies with `highLevelCodeFrequency` alone. -/
def profileWithFrequency (providerId : String) (avgComplexity : ℚ)
    (modifierUsage : List (String × ℕ)) (benchmarks : SpecialtyBenchmarks)
    (hlf : ℚ) : ProviderCodingProfile :=
  { providerId := providerId,
    averageComplexity := avgComplexity,
    highLevelCodeFrequency := hlf,
    modifierUsage := modifierUsage,
    specialtyBenchmarks := benchmarks,
    deviationScore := calculateDeviationScore avgComplexity hlf
      modifierUsage benchmarks }

end Upcoding

namespace Phantom

/-! From `src/lib/fraud/phantom-billing-detector.ts` (`PhantomBillingDetector`),
the time-conflict sub-analysis and pattern evaluation. -/

/-- A claim row as read by `analyzeTimeConflicts`. `serviceDate` is the ISO
day key `claim.serviceDate.toISOString().split('T')[0]` (equal dates yield
equal keys). -/
structure PClaim where
  id : String
  patientId : String
  serviceDate : String
  claimLineItems : List Processor.LineItem
deriving DecidableEq, Repr

/-- Total units of one claim
(`claim.claimLineItems.reduce((s, item) => s + item.units, 0)`). -/
def claimUnits (c : PClaim) : ℚ :=
  (c.claimLineItems.map (·.units)).sum

/-- The distinct service-date keys in first-occurrence order — the key set
(and iteration order) of the `claimsByDate` record built by the grouping
loop. -/
def dateKeys (claims : List PClaim) : List String :=
  claims.foldl
    (fun acc c => if c.serviceDate ∈ acc then acc else acc ++ [c.serviceDate])
    []

/-- The claims grouped under one date key. -/
def claimsOn (claims : List PClaim) (date : String) : List PClaim :=
  claims.filter (fun c => c.serviceDate = date)

/-- Whether the per-date check flags `date`: the source only examines dates
holding MORE THAN ONE claim (`dateClaims.length > 1`), and flags when the
summed units of those claims exceed 8. -/
def dateFlagged (claims : List PClaim) (date : String) : Bool :=
  let dateClaims := claimsOn claims date
  dateClaims.length > 1 && ((dateClaims.map claimUnits).sum > 8)

/-- Result of `analyzeTimeConflicts` (the per-conflict payloads are reduced
to the flagged date keys, the only data the downstream checks read). -/
structure TimeConflictAnalysis where
  overlappingDates : List String
  conflictScore : ℚ
deriving DecidableEq, Repr

/-- `PhantomBillingDetector.analyzeTimeConflicts`. -/
def analyzeTimeConflicts (claims : List PClaim) : TimeConflictAnalysis :=
  let overlappingDates := (dateKeys claims).filter (dateFlagged claims)
  let conflictScore : ℚ := if overlappingDates.length > 0 then 90 else 0
  { overlappingDates := overlappingDates, conflictScore := conflictScore }

/-- The `TIME_CONFLICT` case of
`PhantomBillingDetector.evaluatePhantomPattern`. -/
def timeConflictPatternFires (analysis : TimeConflictAnalysis) : Bool :=
  analysis.conflictScore > 70

/-- The condition the claim text describes, stated directly over the claims
list: some service date carries at least two claims whose units total more
than 8. -/
def hasMultiClaimOverload (claims : List PClaim) : Bool :=
  claims.any (fun c => dateFlagged claims c.serviceDate)

end Phantom

namespace Engine

/-! From the `RiskScoringEngine` source (`src/unnamed/part_014`). -/

/-- One band of the `RISK_THRESHOLDS` table. -/
structure RiskBand where
  lo : ℚ
  hi : ℚ
deriving DecidableEq, Repr

/-- The constant `RISK_THRESHOLDS`. -/
structure RiskThresholds where
  LOW : RiskBand
  MEDIUM : RiskBand
  HIGH : RiskBand
  CRITICAL : RiskBand
deriving DecidableEq, Repr

/-- `RiskScoringEngine.RISK_THRESHOLDS`. -/
def RISK_THRESHOLDS : RiskThresholds :=
  { LOW := ⟨0, 30⟩, MEDIUM := ⟨31, 60⟩, HIGH := ⟨61, 80⟩, CRITICAL := ⟨81, 100⟩ }

/-- `RiskScoringEngine.determineRiskLevel`. -/
def determineRiskLevel (score : ℚ) : RiskLevel :=
  if score ≥ RISK_THRESHOLDS.CRITICAL.lo then RiskLevel.CRITICAL
  else if score ≥ RISK_THRESHOLDS.HIGH.lo then RiskLevel.HIGH
  else if score ≥ RISK_THRESHOLDS.MEDIUM.lo then RiskLevel.MEDIUM
  else RiskLevel.LOW

/-- Interface `MLModelPrediction` (the `features`/`explanation` payloads are
never read by the score blending and are omitted). -/
structure MLModelPrediction where
  model : String
  prediction : ℚ
  confidence : ℚ
deriving DecidableEq, Repr

/-- The `RiskScore` fields read and written by `enhanceWithML` (the
remaining fields are spread through unchanged). -/
structure RiskScoreRec where
  overallScore : ℚ
  confidence : ℚ
deriving DecidableEq, Repr

/-- `RiskScoringEngine.enhanceWithML`: with no predictions the base score is
returned unchanged; otherwise the confidence-weighted mean of the
predictions is blended in at 40% and the confidence is raised by 0.15
(capped at 0.95). -/
def enhanceWithML (baseScore : RiskScoreRec)
    (predictions : List MLModelPrediction) : RiskScoreRec :=
  if predictions.length = 0 then baseScore
  else
    let mlScore :=
      ((predictions.map (fun p => p.prediction * p.confidence)).sum) /
      ((predictions.map (·.confidence)).sum)
    { overallScore := baseScore.overallScore * 0.6 + mlScore * 0.4,
      confidence := min (baseScore.confidence + 0.15) 0.95 }

/-- JS `\s` on the ASCII range (space, tab, line feed, vertical tab, form
feed, carriage return); the Unicode space class is irrelevant to the model
responses considered. -/
def isJsSpace (c : Char) : Bool :=
  c = ' ' || c = '\t' || c = '\n' || c = '\x0b' || c = '\x0c' || c = '\r'

/-- The literal part `"score":` of the extraction regex, as characters. -/
def scoreLiteral : List Char :=
  ['\"', 's', 'c', 'o', 'r', 'e', '\"', ':']

/-- Match a literal character sequence at the front of the input, returning
the remainder on success. -/
def matchLiteral : List Char → List Char → Option (List Char)
  | [], s => some s
  | _ :: _, [] => none
  | l :: ls, c :: cs => if c = l then matchLiteral ls cs else none

/-- `parseInt` on a nonempty run of decimal digits. -/
def digitsToNat (digits : List Char) : ℕ :=
  digits.foldl (fun acc c => 10 * acc + (c.toNat - 48)) 0

/-- Attempt the regex `/"score":\s*(\d+)/` at the current position: the
literal `"score":`, then any whitespace, then at least one digit (maximal
run), returning the captured number. -/
def matchScoreAt (s : List Char) : Option ℕ :=
  match matchLiteral scoreLiteral s with
  | none => none
  | some rest =>
    let afterSpace := rest.dropWhile isJsSpace
    let digits := afterSpace.takeWhile (·.isDigit)
    if digits.isEmpty then none else some (digitsToNat digits)

/-- Leftmost match of `/"score":\s*(\d+)/` over the whole input
(`String.prototype.match` semantics: try each start position left to
right). -/
def findScoreMatch : List Char → Option ℕ
  | [] => none
  | c :: cs =>
    match matchScoreAt (c :: cs) with
    | some n => some n
    | none => findScoreMatch cs

/-- `RiskScoringEngine.extractScoreFromResponse`: the captured number when
the regex matches, else the default 50. -/
def extractScoreFromResponse (content : String) : ℚ :=
  match findScoreMatch content.data with
  | some n => (n : ℚ)
  | none => 50

/-- The prediction record `runClaudeModel` builds from a successful
(non-thrown) model response. -/
def claudePrediction (content : String) : MLModelPrediction :=
  { model := "Anthropic-Claude3",
    prediction := extractScoreFromResponse content,
    confidence := 0.88 }

end Engine

namespace Network

/-! From the `ProviderNetworkAnalyzer` class (second half of
`src/lib/fraud/upcoding-detector.ts`): cluster construction. -/

/-- Interface `ProviderNode` (fields read by the clustering code; the
display-only name/npi/specialty/address fields and the mutable connection
counters are omitted). -/
structure ProviderNode where
  id : String
  totalClaims : ℕ
  flaggedClaims : ℕ
  totalBilled : ℚ
  riskScore : ℚ
deriving DecidableEq, Repr

/-- Interface `ProviderConnection` (fields read by the clustering code). -/
structure ProviderConnection where
  provider1Id : String
  provider2Id : String
  strength : ℚ
  isSuspicious : Bool
  indicators : List String
deriving DecidableEq, Repr

/-- Interface `NetworkCluster`. -/
structure NetworkCluster where
  id : String
  providers : List ProviderNode
  connections : List ProviderConnection
  clusterRiskScore : ℚ
  suspiciousPatterns : List String
  fraudIndicators : List String
  totalBilled : ℚ
  flaggedClaims : ℕ
deriving DecidableEq, Repr

/-- Whether a connection is incident to the given provider id
(`c.provider1Id === currentId || c.provider2Id === currentId`). -/
def incident (c : ProviderConnection) (id : String) : Bool :=
  c.provider1Id = id || c.provider2Id = id

/-- The opposite endpoint of a connection relative to `currentId`. -/
def otherEnd (c : ProviderConnection) (currentId : String) : String :=
  if c.provider1Id = currentId then c.provider2Id else c.provider1Id

/-- One state of `buildCluster`'s work-list loop. -/
structure ClusterState where
  toProcess : List String
  visited : Finset String
  processed : Finset String
  clusterProviders : List ProviderNode
  clusterConnections : List ProviderConnection

/-- The ids a visit of `currentId` pushes onto the work list: opposite
endpoints of incident connections that are unvisited and whose strength
exceeds 30 (the work list is a stack — JS `push`/`pop` on the array end — so
pushes are consed in reverse to keep pop order). -/
def pushesOf (connections : List ProviderConnection) (visited : Finset String)
    (currentId : String) : List String :=
  ((connections.filter (fun c => incident c currentId)).filter
    (fun c => otherEnd c currentId ∉ visited && c.strength > 30)).map
    (fun c => otherEnd c currentId)

/-- The `while (toProcess.length > 0)` loop of
`ProviderNetworkAnalyzer.buildCluster`, with an explicit fuel bounding the
number of pops (each visit pushes at most `connections.length` ids, so
adequate fuel is computable from the inputs; the returned state is the loop's
fixpoint whenever the fuel suffices). -/
def buildClusterLoop (allProviders : List ProviderNode)
    (connections : List ProviderConnection) :
    ℕ → ClusterState → ClusterState
  | 0, st => st
  | _ + 1, ⟨[], v, pr, cp, cc⟩ => ⟨[], v, pr, cp, cc⟩
  | fuel + 1, ⟨currentId :: rest, visited, processed, cp, cc⟩ =>
    if currentId ∈ visited ∨ currentId ∈ processed then
      buildClusterLoop allProviders connections fuel
        ⟨rest, visited, processed, cp, cc⟩
    else
      let visited' := insert currentId visited
      let processed' := insert currentId processed
      let cp' :=
        match allProviders.find? (fun p => p.id = currentId) with
        | some provider => cp ++ [provider]
        | none => cp
      let connectedConnections := connections.filter (fun c => incident c currentId)
      let cc' := cc ++ connectedConnections
      buildClusterLoop allProviders connections fuel
        ⟨(pushesOf connections visited' currentId).reverse ++ rest,
          visited', processed', cp', cc'⟩

/-- Fuel sufficient for `buildClusterLoop`: one pop for the seed plus at most
`connections.length` pushes for each of the at most
`2 * connections.length + 1` distinct visitable ids. -/
def clusterFuel (connections : List ProviderConnection) : ℕ :=
  (2 * connections.length + 2) * (connections.length + 1) + 1

/-- `ProviderNetworkAnalyzer.identifyClusterPatterns`. -/
def identifyClusterPatterns (providers : List ProviderNode)
    (connections : List ProviderConnection) : List String :=
  let p1 : List String := if providers.length > 5 then ["LARGE_NETWORK"] else []
  let highRiskProviders := (providers.filter (fun p => p.riskScore > 70)).length
  let p2 := if (highRiskProviders : ℚ) > (providers.length : ℚ) * 0.5 then
    p1 ++ ["HIGH_RISK_CONCENTRATION"] else p1
  let suspiciousConnections := (connections.filter (·.isSuspicious)).length
  if (suspiciousConnections : ℚ) > (connections.length : ℚ) * 0.6 then
    p2 ++ ["SUSPICIOUS_NETWORK_STRUCTURE"] else p2

/-- `ProviderNetworkAnalyzer.identifyFraudIndicators` (first-occurrence
de-duplication of all connection indicators). -/
def identifyFraudIndicators (connections : List ProviderConnection) :
    List String :=
  connections.foldl
    (fun acc c =>
      c.indicators.foldl
        (fun acc' ind => if ind ∈ acc' then acc' else acc' ++ [ind]) acc)
    []

/-- The cluster record assembled at the end of `buildCluster` (JS computes
`suspiciousCount / clusterConnections.length` which is `NaN` on an empty
list; a returned cluster always has at least one connection, so the
difference from rational division-by-zero is unreachable). -/
def mkCluster (cp : List ProviderNode) (cc : List ProviderConnection) :
    NetworkCluster :=
  let totalBilled := (cp.map (·.totalBilled)).sum
  let flaggedClaims := (cp.map (·.flaggedClaims)).sum
  let avgRiskScore := ((cp.map (·.riskScore)).sum) / (cp.length : ℚ)
  let suspiciousConnectionCount := (cc.filter (·.isSuspicious)).length
  let totalClaimsOr1 : ℚ :=
    if (cp.map (·.totalClaims)).sum = 0 then 1 else ((cp.map (·.totalClaims)).sum : ℚ)
  let clusterRiskScore :=
    max (max avgRiskScore
      ((suspiciousConnectionCount : ℚ) / (cc.length : ℚ) * 100))
      ((flaggedClaims : ℚ) / totalClaimsOr1 * 100)
  { id := "cluster-" ++ ((cp.head?.map (·.id)).getD ""),
    providers := cp,
    connections := cc,
    clusterRiskScore := clusterRiskScore,
    suspiciousPatterns := identifyClusterPatterns cp cc,
    fraudIndicators := identifyFraudIndicators cc,
    totalBilled := totalBilled,
    flaggedClaims := flaggedClaims }

/-- `ProviderNetworkAnalyzer.buildCluster`: run the work-list loop from the
start provider, then return `none` for clusters of fewer than two providers.
The shared `processedProviders` set is threaded through explicitly. -/
def buildCluster (startProvider : ProviderNode)
    (allProviders : List ProviderNode) (connections : List ProviderConnection)
    (processed : Finset String) : Finset String × Option NetworkCluster :=
  let final := buildClusterLoop allProviders connections
    (clusterFuel connections)
    ⟨[startProvider.id], ∅, processed, [], []⟩
  if final.clusterProviders.length < 2 then (final.processed, none)
  else (final.processed,
    some (mkCluster final.clusterProviders final.clusterConnections))

/-- `ProviderNetworkAnalyzer.identifySuspiciousClusters`: walk the provider
nodes, building a cluster from each not-yet-processed one, keeping the
clusters whose risk score exceeds 60. -/
def identifySuspiciousClusters (providerNodes : List ProviderNode)
    (connections : List ProviderConnection) : List NetworkCluster :=
  (providerNodes.foldl
    (fun (st : Finset String × List NetworkCluster) provider =>
      if provider.id ∈ st.1 then st
      else
        match buildCluster provider providerNodes connections st.1 with
        | (processed', some cluster) =>
            if cluster.clusterRiskScore > 60 then (processed', st.2 ++ [cluster])
            else (processed', st.2)
        | (processed', none) => (processed', st.2))
    (∅, [])).2

/-- Two ids are joined by a strong edge: some connection of strength above 30
has exactly these two (distinct roles of) endpoints. -/
def StrongTo (connections : List ProviderConnection) (a b : String) : Prop :=
  ∃ c ∈ connections, c.strength > 30 ∧
    ((c.provider1Id = a ∧ c.provider2Id = b) ∨
     (c.provider1Id = b ∧ c.provider2Id = a))

/-- Some node of the list carries the given id. -/
def NodeFor (allProviders : List ProviderNode) (id : String) : Prop :=
  ∃ p ∈ allProviders, p.id = id

/-- Every connection's endpoints name nodes of the analysis — guaranteed by
construction in `analyzeProviderNetwork`, which builds connections only
between the analyzed providers. -/
def EndpointsAreNodes (allProviders : List ProviderNode)
    (connections : List ProviderConnection) : Prop :=
  ∀ c ∈ connections,
    NodeFor allProviders c.provider1Id ∧ NodeFor allProviders c.provider2Id

/-- Loop invariant of `buildClusterLoop`, relative to the start id. -/
def LoopInv (allProviders : List ProviderNode)
    (connections : List ProviderConnection) (start : String)
    (st : ClusterState) : Prop :=
  (∀ id ∈ st.toProcess, NodeFor allProviders id) ∧
  (∀ id ∈ st.toProcess,
    (∃ m ∈ st.clusterProviders, StrongTo connections id m.id ∧ m.id ≠ id) ∨
    (id = start ∧ st.clusterProviders = [])) ∧
  (∀ p ∈ st.clusterProviders, p.id = start ∨
    ∃ q ∈ st.clusterProviders,
      StrongTo connections p.id q.id ∧ q.id ≠ p.id) ∧
  (2 ≤ st.clusterProviders.length →
    ∃ q ∈ st.clusterProviders, StrongTo connections start q.id ∧ q.id ≠ start) ∧
  (st.clusterProviders = [] →
    st.toProcess = [start] ∧ start ∉ st.visited ∧ start ∉ st.processed) ∧
  (st.clusterProviders ≠ [] →
    ∃ m ∈ st.clusterProviders, m.id = start)

end Network

namespace Examples

/-! Concrete records used by closed theorems and witnesses. -/

/-- A fixed `Date.now()` value (epoch milliseconds). -/
def exNow : Int := 1700000000000

/-- A freshly submitted claim. -/
def claimNew : Processor.ClaimRec :=
  { id := "c-new", providerId := "prov-1", patientId := "pat-1",
    serviceDate := 1699000000000, billedAmount := 150,
    createdAt := 1700000000000, isFlagged := false }

/-- An identical claim created 29 days before `exNow`. -/
def claimPrior29 : Processor.ClaimRec :=
  { claimNew with id := "c-old", createdAt := exNow - 29 * 86400000 }

/-- An identical claim created 31 days before `exNow`. -/
def claimPrior31 : Processor.ClaimRec :=
  { claimNew with id := "c-old", createdAt := exNow - 31 * 86400000 }

/-- A provider with no registered coordinates. -/
def cleanProvider : Processor.ProviderRec := ⟨none, none⟩

/-- A single modest line item (level-3 E&M visit at its base rate). -/
def lineItem99213 : Processor.LineItem :=
  { procedureCode := "99213", modifier1 := none, modifier2 := none,
    modifier3 := none, modifier4 := none, units := 1, unitCost := 75,
    totalCost := 75 }

/-- A claim holding exactly one level-3 E&M line item. -/
def uclaim99213 : Upcoding.UClaim := ⟨[lineItem99213]⟩

/-- A claim billing a level-5 E&M visit at 300 (above 1.5 times the code's
typical maximum of 180). -/
def uclaim99215High : Upcoding.UClaim :=
  ⟨[{ procedureCode := "99215", modifier1 := none, modifier2 := none,
      modifier3 := none, modifier4 := none, units := 1, unitCost := 300,
      totalCost := 300 }]⟩

/-- The GENERAL_PRACTICE specialty benchmarks. -/
def benchGP : Upcoding.SpecialtyBenchmarks :=
  Upcoding.getSpecialtyBenchmarks "GENERAL_PRACTICE"

/-- A single claim billing 9 units on one service date. -/
def pclaimNineUnits : Phantom.PClaim :=
  { id := "pb-1", patientId := "pat-1", serviceDate := "2024-01-01",
    claimLineItems :=
      [{ procedureCode := "97110", modifier1 := none, modifier2 := none,
         modifier3 := none, modifier4 := none, units := 9, unitCost := 30,
         totalCost := 270 }] }

/-- Network witness data: two provider nodes. -/
def nodeA : Network.ProviderNode :=
  { id := "prov-A", totalClaims := 10, flaggedClaims := 0,
    totalBilled := 1000, riskScore := 0 }

/-- Second provider node. -/
def nodeB : Network.ProviderNode :=
  { id := "prov-B", totalClaims := 10, flaggedClaims := 0,
    totalBilled := 1000, riskScore := 0 }

/-- A suspicious connection of strength 40 between the two nodes. -/
def connAB : Network.ProviderConnection :=
  { provider1Id := "prov-A", provider2Id := "prov-B", strength := 40,
    isSuspicious := true, indicators := ["Same business address"] }

end Examples

/-! ## Theorems -/

/-- Claim C2: the Risk Scoring Engine's `determineRiskLevel` maps 30, 31, 60,
61, 80, 81 to LOW, MEDIUM, MEDIUM, HIGH, HIGH, CRITICAL respectively, and in
general classifies per the `RISK_THRESHOLDS` boundaries: at least 81
CRITICAL, 61 up to (not incl.) 81 HIGH, 31 up to (not incl.) 61 MEDIUM,
below 31 LOW. -/
theorem claim_C2 :
    Engine.determineRiskLevel 30 = RiskLevel.LOW ∧
    Engine.determineRiskLevel 31 = RiskLevel.MEDIUM ∧
    Engine.determineRiskLevel 60 = RiskLevel.MEDIUM ∧
    Engine.determineRiskLevel 61 = RiskLevel.HIGH ∧
    Engine.determineRiskLevel 80 = RiskLevel.HIGH ∧
    Engine.determineRiskLevel 81 = RiskLevel.CRITICAL ∧
    ∀ s : ℚ,
      (Engine.determineRiskLevel s = RiskLevel.CRITICAL ↔ 81 ≤ s) ∧
      (Engine.determineRiskLevel s = RiskLevel.HIGH ↔ 61 ≤ s ∧ s < 81) ∧
      (Engine.determineRiskLevel s = RiskLevel.MEDIUM ↔ 31 ≤ s ∧ s < 61) ∧
      (Engine.determineRiskLevel s = RiskLevel.LOW ↔ s < 31) := by
  refine ⟨by norm_num [Engine.determineRiskLevel, Engine.RISK_THRESHOLDS],
    by norm_num [Engine.determineRiskLevel, Engine.RISK_THRESHOLDS],
    by norm_num [Engine.determineRiskLevel, Engine.RISK_THRESHOLDS],
    by norm_num [Engine.determineRiskLevel, Engine.RISK_THRESHOLDS],
    by norm_num [Engine.determineRiskLevel, Engine.RISK_THRESHOLDS],
    by norm_num [Engine.determineRiskLevel, Engine.RISK_THRESHOLDS], ?_⟩
  intro s
  unfold Engine.determineRiskLevel Engine.RISK_THRESHOLDS
  norm_num
  split_ifs with h1 h2 h3 <;> simp_all <;> linarith

/-- Claim C10: a model response whose text contains no `"score": <number>`
fragment yields the default extracted score 50 rather than being discarded;
blended as a single successful prediction it moves the overall score to
60% rule-based + 40% of 50, while an empty prediction list (thrown error or
null response) leaves the base score unchanged. -/
theorem claim_C10 (content : String) (base : Engine.RiskScoreRec)
    (h : Engine.findScoreMatch content.data = none) :
    Engine.extractScoreFromResponse content = 50 ∧
    (Engine.enhanceWithML base [Engine.claudePrediction content]).overallScore
      = base.overallScore * 0.6 + 50 * 0.4 ∧
    Engine.enhanceWithML base [] = base := by
  have h50 : Engine.extractScoreFromResponse content = 50 := by
    unfold Engine.extractScoreFromResponse
    rw [h]
  refine ⟨h50, ?_, rfl⟩
  simp only [Engine.enhanceWithML, Engine.claudePrediction, h50]
  norm_num

/-- Witness for C10 at a concrete unparsable response text. -/
theorem claim_C10_witness :
    Engine.findScoreMatch ("the model returned prose only").data = none ∧
    Engine.extractScoreFromResponse "the model returned prose only" = 50 ∧
    (Engine.enhanceWithML ⟨20, 0.75⟩
      [Engine.claudePrediction "the model returned prose only"]).overallScore
      = 20 * 0.6 + 50 * 0.4 := by
  have h : Engine.findScoreMatch ("the model returned prose only").data = none := by
    decide
  have := claim_C10 "the model returned prose only" ⟨20, 0.75⟩ h
  exact ⟨h, this.1, this.2.1⟩

theorem dup_filter_iff (claim : Processor.ClaimRec)
    (db : List Processor.ClaimRec) (now : Int) :
    0 < (db.filter (Processor.duplicateMatch claim now)).length ↔
      Processor.SpecDuplicateExists claim db now := by
  rw [List.length_pos]
  constructor
  · intro h
    obtain ⟨c, hc⟩ := List.exists_mem_of_ne_nil _ h
    have hmem := List.mem_filter.1 hc
    refine ⟨c, hmem.1, ?_⟩
    have hm := hmem.2
    unfold Processor.duplicateMatch Processor.thirtyDaysMs at hm
    simp only [Bool.and_eq_true, decide_eq_true_eq, ge_iff_le, ne_eq] at hm
    obtain ⟨⟨⟨⟨⟨g1, g2⟩, g3⟩, g4⟩, g5⟩, g6⟩ := hm
    exact ⟨g1, g2, g3, g4, by omega, g6⟩
  · rintro ⟨c, hc, h1, h2, h3, h4, h5, h6⟩
    intro hnil
    have hcf : c ∈ db.filter (Processor.duplicateMatch claim now) := by
      refine List.mem_filter.2 ⟨hc, ?_⟩
      unfold Processor.duplicateMatch Processor.thirtyDaysMs
      simp only [Bool.and_eq_true, decide_eq_true_eq, ge_iff_le, ne_eq]
      exact ⟨⟨⟨⟨⟨h1, h2⟩, h3⟩, h4⟩, by omega⟩, h6⟩
    rw [hnil] at hcf
    exact absurd hcf (List.not_mem_nil c)

/-- Claim C6: duplicate detection matches prior claims with the same
provider, patient, service date and billed amount created within a 30-day
trailing window, excluding the claim itself; a match yields confidence 90
with severity HIGH, no match yields confidence 0; an identical claim
created 31 days earlier is not flagged while one created 29 days earlier
is. -/
theorem claim_C6 :
    (∀ (claim : Processor.ClaimRec) (db : List Processor.ClaimRec) (now : Int),
      ((Processor.detectDuplicateClaims claim db now).confidence = 90 ∧
       (Processor.detectDuplicateClaims claim db now).severity = RiskLevel.HIGH ∧
       (Processor.detectDuplicateClaims claim db now).type =
         FraudType.DUPLICATE_CLAIM)
      ↔ Processor.SpecDuplicateExists claim db now) ∧
    (∀ (claim : Processor.ClaimRec) (db : List Processor.ClaimRec) (now : Int),
      (Processor.detectDuplicateClaims claim db now).confidence = 0
      ↔ ¬ Processor.SpecDuplicateExists claim db now) ∧
    (Processor.detectDuplicateClaims Examples.claimNew [Examples.claimPrior31]
      Examples.exNow).confidence = 0 ∧
    (Processor.detectDuplicateClaims Examples.claimNew [Examples.claimPrior29]
      Examples.exNow).confidence = 90 ∧
    (Processor.detectDuplicateClaims Examples.claimNew [Examples.claimPrior29]
      Examples.exNow).severity = RiskLevel.HIGH := by
  refine ⟨?_, ?_, by decide, by decide, by decide⟩
  · intro claim db now
    unfold Processor.detectDuplicateClaims
    by_cases h : Processor.SpecDuplicateExists claim db now
    · rw [if_pos ((dup_filter_iff claim db now).2 h)]
      simpa using h
    · rw [if_neg (fun hp => h ((dup_filter_iff claim db now).1 hp))]
      simp only [h, iff_false]
      intro hcon
      exact absurd hcon.1 (by norm_num)
  · intro claim db now
    unfold Processor.detectDuplicateClaims
    by_cases h : Processor.SpecDuplicateExists claim db now
    · rw [if_pos ((dup_filter_iff claim db now).2 h)]
      simp only [h, not_true, iff_false]
      norm_num
    · rw [if_neg (fun hp => h ((dup_filter_iff claim db now).1 hp))]
      simpa using h

/-- Claim C3: the provider coding profile's `highLevelCodeFrequency` — on a
provider whose only E&M code is the level-3 code 99213, the source computes
frequency 1 (its filter callback returns the truthy constant
`['99214','99215','99204','99205'].length`, so every E&M code passes),
whereas the fraction of E&M codes at levels 4–5 is 0. -/
theorem claim_C3 :
    Upcoding.emCodesOf [Examples.uclaim99213] = ["99213"] ∧
    (Upcoding.analyzeProviderProfile "prov-1" [Examples.uclaim99213]
      (some "GENERAL_PRACTICE")).highLevelCodeFrequency = 1 ∧
    Upcoding.highLevelFrequencySpec [Examples.uclaim99213] = 0 := by
  refine ⟨by decide, ?_, ?_⟩
  · norm_num [Upcoding.analyzeProviderProfile, Upcoding.emCodesOf,
      Upcoding.emCodeList, Upcoding.highLevelCallback, Examples.uclaim99213,
      Examples.lineItem99213]
  · norm_num [Upcoding.highLevelFrequencySpec, Upcoding.emCodesOf,
      Upcoding.emCodeList, Examples.uclaim99213, Examples.lineItem99213]
    decide

/-- Counterexample for C7: a single claim billing 9 units on one date, with
no other same-day claim, is NOT flagged — the source only examines dates
holding more than one claim, so `conflictScore` stays 0 and the
TIME_CONFLICT pattern does not fire, against the claim's assertion. -/
theorem claim_C7_counterexample :
    Phantom.claimUnits Examples.pclaimNineUnits = 9 ∧
    (Phantom.analyzeTimeConflicts [Examples.pclaimNineUnits]).conflictScore = 0 ∧
    Phantom.timeConflictPatternFires
      (Phantom.analyzeTimeConflicts [Examples.pclaimNineUnits]) = false := by
  refine ⟨?_, ?_, ?_⟩ <;>
    norm_num [Phantom.claimUnits, Phantom.analyzeTimeConflicts,
      Phantom.timeConflictPatternFires, Phantom.dateKeys, Phantom.dateFlagged,
      Phantom.claimsOn, Examples.pclaimNineUnits]

theorem mem_dateKeys_aux (claims : List Phantom.PClaim) :
    ∀ (acc : List String) (d : String),
      d ∈ claims.foldl
        (fun acc c =>
          if c.serviceDate ∈ acc then acc else acc ++ [c.serviceDate]) acc
      ↔ d ∈ acc ∨ ∃ c ∈ claims, c.serviceDate = d := by
  induction claims with
  | nil => simp
  | cons c cs ih =>
    intro acc d
    simp only [List.foldl_cons]
    rw [ih]
    by_cases h : c.serviceDate ∈ acc
    · simp only [h, if_true]
      constructor
      · rintro (hd | ⟨x, hx, he⟩)
        · exact Or.inl hd
        · exact Or.inr ⟨x, List.mem_cons_of_mem _ hx, he⟩
      · rintro (hd | ⟨x, hx, he⟩)
        · exact Or.inl hd
        · rcases List.mem_cons.1 hx with h1 | h1
          · subst h1; exact Or.inl (he ▸ h)
          · exact Or.inr ⟨x, h1, he⟩
    · simp only [h, if_false]
      constructor
      · rintro (hd | ⟨x, hx, he⟩)
        · rcases List.mem_append.1 hd with h1 | h1
          · exact Or.inl h1
          · exact Or.inr ⟨c, List.mem_cons_self c cs,
              (List.mem_singleton.1 h1).symm⟩
        · exact Or.inr ⟨x, List.mem_cons_of_mem _ hx, he⟩
      · rintro (hd | ⟨x, hx, he⟩)
        · exact Or.inl (List.mem_append.2 (Or.inl hd))
        · rcases List.mem_cons.1 hx with h1 | h1
          · subst h1
            exact Or.inl (List.mem_append.2 (Or.inr (List.mem_singleton.2 he.symm)))
          · exact Or.inr ⟨x, h1, he⟩

theorem mem_dateKeys (claims : List Phantom.PClaim) (d : String) :
    d ∈ Phantom.dateKeys claims ↔ ∃ c ∈ claims, c.serviceDate = d := by
  unfold Phantom.dateKeys
  rw [mem_dateKeys_aux]
  simp

theorem overload_iff (claims : List Phantom.PClaim) :
    0 < ((Phantom.dateKeys claims).filter (Phantom.dateFlagged claims)).length
      ↔ Phantom.hasMultiClaimOverload claims = true := by
  rw [List.length_pos]
  unfold Phantom.hasMultiClaimOverload
  rw [List.any_eq_true]
  constructor
  · intro h
    obtain ⟨d, hd⟩ := List.exists_mem_of_ne_nil _ h
    have hmem := List.mem_filter.1 hd
    obtain ⟨c, hc, he⟩ := (mem_dateKeys claims d).1 hmem.1
    exact ⟨c, hc, by rw [he]; exact hmem.2⟩
  · rintro ⟨c, hc, hf⟩
    intro hnil
    have : c.serviceDate ∈
        (Phantom.dateKeys claims).filter (Phantom.dateFlagged claims) :=
      List.mem_filter.2 ⟨(mem_dateKeys claims c.serviceDate).2 ⟨c, hc, rfl⟩, hf⟩
    rw [hnil] at this
    exact absurd this (List.not_mem_nil _)

/-- Claim C7 (amended): the time-conflict sub-analysis flags a service date
only when it carries AT LEAST TWO same-day claims whose summed units exceed
8; `conflictScore` is 90 exactly when such a date exists (else 0), and the
TIME_CONFLICT pattern fires exactly under the same condition. A single claim
with more than 8 units and no other same-day claim is not flagged. -/
theorem claim_C7 (claims : List Phantom.PClaim) :
    ((Phantom.analyzeTimeConflicts claims).conflictScore =
      if Phantom.hasMultiClaimOverload claims = true then 90 else 0) ∧
    (Phantom.timeConflictPatternFires (Phantom.analyzeTimeConflicts claims)
      = Phantom.hasMultiClaimOverload claims) := by
  have key := overload_iff claims
  have hscore : (Phantom.analyzeTimeConflicts claims).conflictScore =
      if Phantom.hasMultiClaimOverload claims = true then 90 else 0 := by
    unfold Phantom.analyzeTimeConflicts
    by_cases h : Phantom.hasMultiClaimOverload claims = true
    · rw [if_pos h]
      simp only []
      rw [if_pos (key.2 h)]
    · rw [if_neg h]
      simp only []
      rw [if_neg (fun hp => h (key.1 hp))]
  refine ⟨hscore, ?_⟩
  unfold Phantom.timeConflictPatternFires
  rw [hscore]
  by_cases h : Phantom.hasMultiClaimOverload claims = true
  · rw [if_pos h, h]
    norm_num
  · rw [if_neg h]
    simp only [Bool.not_eq_true] at h
    rw [h]
    norm_num

/-- Claim C1: the auto-approval gate — the source computes
`approved = totalRiskScore < 30 && alerts.length === 0`, but each detector's
alert is pushed only when `analysis.riskScore > 0`, and `FraudAlert` has no
`riskScore` field (the access yields `undefined`, so the test is always
false). Hence a claim with a duplicate match found (confidence 90) still
ends with zero recorded alerts, aggregate score 0, and `approved = true`,
contradicting the claim. -/
theorem claim_C1 :
    (Processor.detectDuplicateClaims Examples.claimNew [Examples.claimPrior29]
      Examples.exNow).confidence = 90 ∧
    (Processor.analyzeClaim Examples.claimNew Examples.cleanProvider
      [Examples.lineItem99213] [Examples.claimPrior29] []
      Examples.exNow).approved = true ∧
    (Processor.analyzeClaim Examples.claimNew Examples.cleanProvider
      [Examples.lineItem99213] [Examples.claimPrior29] []
      Examples.exNow).alerts = [] ∧
    (Processor.analyzeClaim Examples.claimNew Examples.cleanProvider
      [Examples.lineItem99213] [Examples.claimPrior29] []
      Examples.exNow).riskScore = 0 := by
  refine ⟨by decide, ?_, ?_, ?_⟩ <;>
    norm_num [Processor.analyzeClaim, Processor.accumulateAlert,
      Processor.jsGtZero, Processor.FraudAlert.riskScoreField,
      Processor.analyzeProviderPatterns]

theorem list_mean_bounds (l : List ℚ) (a b : ℚ) (hne : l ≠ [])
    (h : ∀ x ∈ l, a ≤ x ∧ x ≤ b) :
    a ≤ l.sum / l.length ∧ l.sum / l.length ≤ b := by
  have hlen : 0 < (l.length : ℚ) := by
    have := List.length_pos.2 hne
    exact_mod_cast this
  constructor
  · rw [le_div_iff₀ hlen]
    have := List.card_nsmul_le_sum l a (fun x hx => (h x hx).1)
    rw [nsmul_eq_mul] at this
    linarith
  · rw [div_le_iff₀ hlen]
    have := List.sum_le_card_nsmul l b (fun x hx => (h x hx).2)
    rw [nsmul_eq_mul] at this
    linarith

theorem upcoding_weights_bounds :
    ∀ p ∈ Upcoding.UPCODING_PATTERNS, 65 ≤ p.riskScore ∧ p.riskScore ≤ 85 := by
  intro p hp
  simp only [Upcoding.UPCODING_PATTERNS, List.mem_cons, List.not_mem_nil,
    or_false] at hp
  rcases hp with rfl | rfl | rfl | rfl | rfl <;> constructor <;>
    norm_num [Upcoding.patConsistentHighLevel, Upcoding.patTimeDocMismatch,
      Upcoding.patModifierAbuse, Upcoding.patSpecialtyDeviation,
      Upcoding.patBundlingEvasion]

theorem riskMetrics_nil : Upcoding.calculateRiskMetrics [] = (0, RiskLevel.LOW) := by
  unfold Upcoding.calculateRiskMetrics
  norm_num

theorem riskMetrics_fst (patterns : List Upcoding.UpcodingPattern)
    (hne : patterns ≠ []) :
    (Upcoding.calculateRiskMetrics patterns).1 =
      ((patterns.map (·.riskScore)).sum) / (patterns.length : ℚ) := by
  unfold Upcoding.calculateRiskMetrics
  rw [if_neg (by simpa [List.length_eq_zero] using hne)]

theorem riskMetrics_snd (patterns : List Upcoding.UpcodingPattern)
    (hne : patterns ≠ []) :
    (Upcoding.calculateRiskMetrics patterns).2 =
      (if (Upcoding.calculateRiskMetrics patterns).1 ≥ 80 then RiskLevel.CRITICAL
       else if (Upcoding.calculateRiskMetrics patterns).1 ≥ 60 then RiskLevel.HIGH
       else if (Upcoding.calculateRiskMetrics patterns).1 ≥ 40 then RiskLevel.MEDIUM
       else RiskLevel.LOW) := by
  rw [riskMetrics_fst patterns hne]
  unfold Upcoding.calculateRiskMetrics
  rw [if_neg (by simpa [List.length_eq_zero] using hne)]

theorem riskMetrics_conf_bounds (patterns : List Upcoding.UpcodingPattern)
    (hne : patterns ≠ [])
    (hsub : ∀ p ∈ patterns, p ∈ Upcoding.UPCODING_PATTERNS) :
    65 ≤ (Upcoding.calculateRiskMetrics patterns).1 ∧
      (Upcoding.calculateRiskMetrics patterns).1 ≤ 85 := by
  rw [riskMetrics_fst patterns hne]
  have hmap : (patterns.map (·.riskScore)).length = patterns.length :=
    List.length_map _ _
  have := list_mean_bounds (patterns.map (·.riskScore)) 65 85
    (by simpa [List.map_eq_nil_iff] using hne)
    (by
      intro x hx
      obtain ⟨p, hp, rfl⟩ := List.mem_map.1 hx
      exact upcoding_weights_bounds p (hsub p hp))
  rw [hmap] at this
  exact this

theorem detectUpcoding_eq (pid : String) (claims : List Upcoding.UClaim)
    (specialty : Option String) (hne : claims ≠ []) :
    Upcoding.detectUpcoding pid claims specialty =
      { isUpcoding := decide ((Upcoding.calculateRiskMetrics
          (Upcoding.detectUpcodingPatterns claims
            (Upcoding.analyzeProviderProfile pid claims specialty))).1 > 60),
        confidence := (Upcoding.calculateRiskMetrics
          (Upcoding.detectUpcodingPatterns claims
            (Upcoding.analyzeProviderProfile pid claims specialty))).1,
        riskLevel := (Upcoding.calculateRiskMetrics
          (Upcoding.detectUpcodingPatterns claims
            (Upcoding.analyzeProviderProfile pid claims specialty))).2,
        patterns := Upcoding.detectUpcodingPatterns claims
          (Upcoding.analyzeProviderProfile pid claims specialty),
        providerProfile := Upcoding.analyzeProviderProfile pid claims specialty } := by
  unfold Upcoding.detectUpcoding
  rw [if_neg (by simpa [List.length_eq_zero] using hne)]

/-- Claim C9: for a provider with at least one claim in the window, the
detector's confidence is 0 (no pattern matched) or the mean of the matched
patterns' fixed weights, hence in [65, 85]; `isUpcoding` holds exactly when
some pattern matched; and the risk level is never MEDIUM — LOW with no
match, HIGH or CRITICAL otherwise. -/
theorem claim_C9 (pid : String) (claims : List Upcoding.UClaim)
    (specialty : Option String) (hne : claims ≠ []) :
    ((Upcoding.detectUpcoding pid claims specialty).confidence = 0 ∨
      (65 ≤ (Upcoding.detectUpcoding pid claims specialty).confidence ∧
       (Upcoding.detectUpcoding pid claims specialty).confidence ≤ 85)) ∧
    ((Upcoding.detectUpcoding pid claims specialty).isUpcoding = true ↔
      (Upcoding.detectUpcoding pid claims specialty).patterns ≠ []) ∧
    ((Upcoding.detectUpcoding pid claims specialty).confidence = 0 ↔
      (Upcoding.detectUpcoding pid claims specialty).patterns = []) ∧
    (Upcoding.detectUpcoding pid claims specialty).riskLevel ≠ RiskLevel.MEDIUM ∧
    ((Upcoding.detectUpcoding pid claims specialty).patterns = [] →
      (Upcoding.detectUpcoding pid claims specialty).riskLevel = RiskLevel.LOW) ∧
    ((Upcoding.detectUpcoding pid claims specialty).patterns ≠ [] →
      ((Upcoding.detectUpcoding pid claims specialty).riskLevel = RiskLevel.HIGH ∨
       (Upcoding.detectUpcoding pid claims specialty).riskLevel =
         RiskLevel.CRITICAL)) ∧
    (Upcoding.detectUpcoding pid claims specialty).patterns.Sublist
      Upcoding.UPCODING_PATTERNS ∧
    ((Upcoding.detectUpcoding pid claims specialty).patterns ≠ [] →
      (Upcoding.detectUpcoding pid claims specialty).confidence =
        (((Upcoding.detectUpcoding pid claims specialty).patterns.map
          (·.riskScore)).sum) /
        (((Upcoding.detectUpcoding pid claims specialty).patterns.length : ℚ))) := by
  rw [detectUpcoding_eq pid claims specialty hne]
  set pats := Upcoding.detectUpcodingPatterns claims
    (Upcoding.analyzeProviderProfile pid claims specialty) with hpats
  simp only []
  have hsubl : pats.Sublist Upcoding.UPCODING_PATTERNS := by
    rw [hpats]
    unfold Upcoding.detectUpcodingPatterns
    exact List.filter_sublist _
  by_cases hp : pats = []
  · rw [hp]
    rw [show Upcoding.calculateRiskMetrics [] = (0, RiskLevel.LOW) from
      riskMetrics_nil]
    refine ⟨Or.inl rfl, ?_, by simp, by simp, fun _ => rfl, by simp, ?_, by simp⟩
    · simp
    · simp [hp]
  · have hmem : ∀ q ∈ pats, q ∈ Upcoding.UPCODING_PATTERNS :=
      fun q hq => hsubl.mem hq
    have hbounds := riskMetrics_conf_bounds pats hp hmem
    have hfst := riskMetrics_fst pats hp
    have hsnd := riskMetrics_snd pats hp
    refine ⟨Or.inr hbounds, ?_, ?_, ?_, ?_, ?_, hsubl, fun _ => hfst⟩
    · simp only [decide_eq_true_eq]
      constructor
      · intro _; exact hp
      · intro _; linarith [hbounds.1]
    · constructor
      · intro h0; linarith [hbounds.1]
      · intro h; exact absurd h hp
    · rw [hsnd]
      split_ifs with h1 h2 h3
      · simp
      · simp
      · exact absurd (by linarith [hbounds.1] :
          (Upcoding.calculateRiskMetrics pats).1 ≥ 60) h2
      · simp
    · intro h; exact absurd h hp
    · intro _
      rw [hsnd]
      by_cases h80 : (Upcoding.calculateRiskMetrics pats).1 ≥ 80
      · rw [if_pos h80]; exact Or.inr rfl
      · rw [if_neg h80, if_pos (by linarith [hbounds.1])]
        exact Or.inl rfl

/-- Witness for C9 at a provider with one claim holding one 99213 line
item. -/
theorem claim_C9_witness :
    ([Examples.uclaim99213] : List Upcoding.UClaim) ≠ [] ∧
    ((Upcoding.detectUpcoding "prov-1" [Examples.uclaim99213] none).isUpcoding
        = true ↔
      (Upcoding.detectUpcoding "prov-1" [Examples.uclaim99213] none).patterns
        ≠ []) :=
  ⟨by simp,
    (claim_C9 "prov-1" [Examples.uclaim99213] none (by simp)).2.1⟩

theorem deviation_mono (avg : ℚ) (u : List (String × ℕ))
    (b : Upcoding.SpecialtyBenchmarks) (hlf1 hlf2 : ℚ) (h : hlf1 ≤ hlf2) :
    Upcoding.calculateDeviationScore avg hlf1 u b ≤
      Upcoding.calculateDeviationScore avg hlf2 u b := by
  simp only [Upcoding.calculateDeviationScore]
  apply min_le_min _ le_rfl
  have key : (if hlf1 > 0.4 then (30 : ℚ) else 0) ≤
      (if hlf2 > 0.4 then (30 : ℚ) else 0) := by
    split_ifs with h1 h2 <;> norm_num
    linarith
  linarith [key]

theorem evaluatePattern_mono (p : Upcoding.UpcodingPattern)
    (claims : List Upcoding.UClaim) (pid : String) (avg : ℚ)
    (u : List (String × ℕ)) (b : Upcoding.SpecialtyBenchmarks)
    (hlf1 hlf2 : ℚ) (h : hlf1 ≤ hlf2)
    (hp : Upcoding.evaluatePattern p claims
      (Upcoding.profileWithFrequency pid avg u b hlf1) = true) :
    Upcoding.evaluatePattern p claims
      (Upcoding.profileWithFrequency pid avg u b hlf2) = true := by
  unfold Upcoding.evaluatePattern Upcoding.profileWithFrequency at hp ⊢
  simp only at hp ⊢
  split_ifs at hp ⊢
  · simp only [Bool.and_eq_true, decide_eq_true_eq] at hp ⊢
    exact ⟨by linarith [hp.1], hp.2⟩
  · exact hp
  · exact hp
  · simp only [decide_eq_true_eq] at hp ⊢
    have := deviation_mono avg u b hlf1 hlf2 h
    linarith
  · exact hp

theorem evalPat_consistent (claims : List Upcoding.UClaim)
    (profile : Upcoding.ProviderCodingProfile) :
    Upcoding.evaluatePattern Upcoding.patConsistentHighLevel claims profile =
      (decide (profile.highLevelCodeFrequency > 0.6) &&
       decide (profile.averageComplexity > 4.2)) := by
  unfold Upcoding.evaluatePattern
  rw [if_pos (by decide)]

theorem evalPat_time (claims : List Upcoding.UClaim)
    (profile : Upcoding.ProviderCodingProfile) :
    Upcoding.evaluatePattern Upcoding.patTimeDocMismatch claims profile =
      Upcoding.checkTimeDocumentationMismatch claims := by
  unfold Upcoding.evaluatePattern
  rw [if_neg (by decide), if_pos (by decide)]

theorem evalPat_modifier (claims : List Upcoding.UClaim)
    (profile : Upcoding.ProviderCodingProfile) :
    Upcoding.evaluatePattern Upcoding.patModifierAbuse claims profile =
      Upcoding.checkModifierAbuse profile.modifierUsage := by
  unfold Upcoding.evaluatePattern
  rw [if_neg (by decide), if_neg (by decide), if_pos (by decide)]

theorem evalPat_deviation (claims : List Upcoding.UClaim)
    (profile : Upcoding.ProviderCodingProfile) :
    Upcoding.evaluatePattern Upcoding.patSpecialtyDeviation claims profile =
      decide (profile.deviationScore > 70) := by
  unfold Upcoding.evaluatePattern
  rw [if_neg (by decide), if_neg (by decide), if_neg (by decide),
    if_pos (by decide)]

theorem evalPat_bundling (claims : List Upcoding.UClaim)
    (profile : Upcoding.ProviderCodingProfile) :
    Upcoding.evaluatePattern Upcoding.patBundlingEvasion claims profile =
      Upcoding.checkBundlingEvasion claims := by
  unfold Upcoding.evaluatePattern
  rw [if_neg (by decide), if_neg (by decide), if_neg (by decide),
    if_neg (by decide), if_pos (by decide)]

/-- Counterexample for C4: two detection inputs over the same single claim
(one 99215 line item billed at 300) and profiles identical in every field
except `highLevelCodeFrequency` (1/2 versus 7/10, the derived
`deviationScore` being 56 in both). At frequency 1/2 only
TIME_DOCUMENTATION_MISMATCH matches (confidence 80); at 7/10
CONSISTENT_HIGH_LEVEL additionally matches and the mean drops to 77.5 — the
confidence strictly DECREASES as `highLevelCodeFrequency` grows. -/
theorem claim_C4_counterexample :
    (Upcoding.profileWithFrequency "prov-1" 4.5 [] Examples.benchGP
        (1/2)).highLevelCodeFrequency <
      (Upcoding.profileWithFrequency "prov-1" 4.5 [] Examples.benchGP
        (7/10)).highLevelCodeFrequency ∧
    Upcoding.profileWithFrequency "prov-1" 4.5 [] Examples.benchGP (1/2) =
      { Upcoding.profileWithFrequency "prov-1" 4.5 [] Examples.benchGP (7/10)
        with highLevelCodeFrequency := 1/2 } ∧
    (Upcoding.calculateRiskMetrics (Upcoding.detectUpcodingPatterns
      [Examples.uclaim99215High]
      (Upcoding.profileWithFrequency "prov-1" 4.5 [] Examples.benchGP
        (1/2)))).1 = 80 ∧
    (Upcoding.calculateRiskMetrics (Upcoding.detectUpcodingPatterns
      [Examples.uclaim99215High]
      (Upcoding.profileWithFrequency "prov-1" 4.5 [] Examples.benchGP
        (7/10)))).1 = 155/2 ∧
    (155 / 2 : ℚ) < 80 := by
  have hdev : Upcoding.calculateDeviationScore 4.5 (1/2) [] Examples.benchGP =
      Upcoding.calculateDeviationScore 4.5 (7/10) [] Examples.benchGP := by
    norm_num [Upcoding.calculateDeviationScore, Examples.benchGP,
      Upcoding.getSpecialtyBenchmarks, Upcoding.specialtyBenchmarksTable,
      min_def]
  have hA : ((["99213", "99214"] : List String).all
      (fun code => decide (code ∈ (["99215"] : List String)))) = false := by
    simp
  have hB : ((["43239", "43235", "43236"] : List String).all
      (fun code => decide (code ∈ (["99215"] : List String)))) = false := by
    simp
  have hC : ((["80053", "80048"] : List String).all
      (fun code => decide (code ∈ (["99215"] : List String)))) = false := by
    simp
  have hunb : Billing.checkUnbundlingRisk ["99215"] = 0 := by
    unfold Billing.checkUnbundlingRisk
    norm_num [Billing.unbundleStep, Billing.CPT_CODES, min_def]
  have hval : (Billing.validateCodeCombination ["99215"]).riskScore = 0 := by
    unfold Billing.validateCodeCombination
    simp only [Billing.HIGH_RISK_COMBINATIONS, List.foldl_cons, List.foldl_nil,
      hA, hB, hC, hunb, Bool.false_eq_true, if_false]
    norm_num [hunb]
  have hdev56 : ∀ hlf : ℚ, hlf > 0.4 →
      Upcoding.calculateDeviationScore 4.5 hlf [] Examples.benchGP = 56 := by
    intro hlf hh
    unfold Upcoding.calculateDeviationScore
    rw [if_pos hh]
    norm_num [Examples.benchGP, Upcoding.getSpecialtyBenchmarks,
      Upcoding.specialtyBenchmarksTable, min_def, abs_of_nonneg]
  have eTime : ∀ hlf : ℚ, Upcoding.evaluatePattern Upcoding.patTimeDocMismatch
      [Examples.uclaim99215High]
      (Upcoding.profileWithFrequency "prov-1" 4.5 [] Examples.benchGP hlf)
      = true := by
    intro hlf
    rw [evalPat_time]
    norm_num [Upcoding.checkTimeDocumentationMismatch,
      Examples.uclaim99215High, Billing.CPT_CODES]
  have eMod : ∀ hlf : ℚ, Upcoding.evaluatePattern Upcoding.patModifierAbuse
      [Examples.uclaim99215High]
      (Upcoding.profileWithFrequency "prov-1" 4.5 [] Examples.benchGP hlf)
      = false := by
    intro hlf
    rw [evalPat_modifier]
    norm_num [Upcoding.checkModifierAbuse, Upcoding.profileWithFrequency]
  have eDev : ∀ hlf : ℚ, hlf > 0.4 →
      Upcoding.evaluatePattern Upcoding.patSpecialtyDeviation
        [Examples.uclaim99215High]
        (Upcoding.profileWithFrequency "prov-1" 4.5 [] Examples.benchGP hlf)
        = false := by
    intro hlf hh
    rw [evalPat_deviation]
    simp only [Upcoding.profileWithFrequency]
    simp only [hdev56 hlf hh]
    norm_num
  have eBundle : ∀ hlf : ℚ, Upcoding.evaluatePattern Upcoding.patBundlingEvasion
      [Examples.uclaim99215High]
      (Upcoding.profileWithFrequency "prov-1" 4.5 [] Examples.benchGP hlf)
      = false := by
    intro hlf
    rw [evalPat_bundling]
    norm_num [Upcoding.checkBundlingEvasion, Examples.uclaim99215High, hval]
  have eCons1 : Upcoding.evaluatePattern Upcoding.patConsistentHighLevel
      [Examples.uclaim99215High]
      (Upcoding.profileWithFrequency "prov-1" 4.5 [] Examples.benchGP (1/2))
      = false := by
    rw [evalPat_consistent]
    norm_num [Upcoding.profileWithFrequency]
  have eCons2 : Upcoding.evaluatePattern Upcoding.patConsistentHighLevel
      [Examples.uclaim99215High]
      (Upcoding.profileWithFrequency "prov-1" 4.5 [] Examples.benchGP (7/10))
      = true := by
    rw [evalPat_consistent]
    norm_num [Upcoding.profileWithFrequency]
  have hpats1 : Upcoding.detectUpcodingPatterns [Examples.uclaim99215High]
      (Upcoding.profileWithFrequency "prov-1" 4.5 [] Examples.benchGP (1/2))
      = [Upcoding.patTimeDocMismatch] := by
    unfold Upcoding.detectUpcodingPatterns Upcoding.UPCODING_PATTERNS
    simp only [List.filter_cons, List.filter_nil, eCons1, eTime (1/2),
      eMod (1/2), eDev (1/2) (by norm_num), eBundle (1/2)]
    simp
  have hpats2 : Upcoding.detectUpcodingPatterns [Examples.uclaim99215High]
      (Upcoding.profileWithFrequency "prov-1" 4.5 [] Examples.benchGP (7/10))
      = [Upcoding.patConsistentHighLevel, Upcoding.patTimeDocMismatch] := by
    unfold Upcoding.detectUpcodingPatterns Upcoding.UPCODING_PATTERNS
    simp only [List.filter_cons, List.filter_nil, eCons2, eTime (7/10),
      eMod (7/10), eDev (7/10) (by norm_num), eBundle (7/10)]
    simp
  refine ⟨by norm_num [Upcoding.profileWithFrequency], ?_, ?_, ?_, by norm_num⟩
  · simp only [Upcoding.profileWithFrequency]
    congr 1
  · rw [hpats1]
    norm_num [Upcoding.calculateRiskMetrics, Upcoding.patTimeDocMismatch]
  · rw [hpats2]
    norm_num [Upcoding.calculateRiskMetrics, Upcoding.patTimeDocMismatch,
      Upcoding.patConsistentHighLevel]

/-- Claim C4 (amended): raising `highLevelCodeFrequency` (with
`deviationScore` re-derived from it, all other inputs fixed) can only grow
the SET of matched patterns — the matched list at the lower frequency is a
sublist of the one at the higher frequency — and therefore the
`isUpcoding` verdict (confidence > 60) is monotone; the numeric confidence
itself is not monotone, since it is the mean of the matched weights. -/
theorem claim_C4 (claims : List Upcoding.UClaim) (pid : String) (avg : ℚ)
    (u : List (String × ℕ)) (b : Upcoding.SpecialtyBenchmarks)
    (hlf1 hlf2 : ℚ) (h : hlf1 ≤ hlf2) :
    (Upcoding.detectUpcodingPatterns claims
      (Upcoding.profileWithFrequency pid avg u b hlf1)).Sublist
      (Upcoding.detectUpcodingPatterns claims
        (Upcoding.profileWithFrequency pid avg u b hlf2)) ∧
    ((Upcoding.calculateRiskMetrics (Upcoding.detectUpcodingPatterns claims
        (Upcoding.profileWithFrequency pid avg u b hlf1))).1 > 60 →
      (Upcoding.calculateRiskMetrics (Upcoding.detectUpcodingPatterns claims
        (Upcoding.profileWithFrequency pid avg u b hlf2))).1 > 60) := by
  have hsub : (Upcoding.detectUpcodingPatterns claims
      (Upcoding.profileWithFrequency pid avg u b hlf1)).Sublist
      (Upcoding.detectUpcodingPatterns claims
        (Upcoding.profileWithFrequency pid avg u b hlf2)) := by
    unfold Upcoding.detectUpcodingPatterns
    exact List.monotone_filter_right _
      (fun p hp => evaluatePattern_mono p claims pid avg u b hlf1 hlf2 h hp)
  refine ⟨hsub, ?_⟩
  intro hconf
  by_cases hp1 : Upcoding.detectUpcodingPatterns claims
      (Upcoding.profileWithFrequency pid avg u b hlf1) = []
  · rw [hp1, riskMetrics_nil] at hconf
    norm_num at hconf
  · have hp2 : Upcoding.detectUpcodingPatterns claims
        (Upcoding.profileWithFrequency pid avg u b hlf2) ≠ [] := by
      intro hnil
      rw [hnil, List.sublist_nil] at hsub
      exact hp1 hsub
    have hmem : ∀ q ∈ Upcoding.detectUpcodingPatterns claims
        (Upcoding.profileWithFrequency pid avg u b hlf2),
        q ∈ Upcoding.UPCODING_PATTERNS := by
      intro q hq
      unfold Upcoding.detectUpcodingPatterns at hq
      exact List.mem_of_mem_filter hq
    have := riskMetrics_conf_bounds _ hp2 hmem
    linarith [this.1]

theorem bundleStep_congr {p q : Prop} [Decidable p] [Decidable q] (h : p ↔ q)
    (k : String) (w : ℚ) (st : ℚ × Finset String) :
    Billing.bundleStep p k w st = Billing.bundleStep q k w st := by
  unfold Billing.bundleStep
  exact if_congr h rfl rfl

theorem bundleStep_comm {k1 k2 : String} (hk : k1 ≠ k2) {p1 p2 : Prop}
    [Decidable p1] [Decidable p2] (w1 w2 : ℚ) (st : ℚ × Finset String) :
    Billing.bundleStep p1 k1 w1 (Billing.bundleStep p2 k2 w2 st) =
      Billing.bundleStep p2 k2 w2 (Billing.bundleStep p1 k1 w1 st) := by
  unfold Billing.bundleStep
  by_cases h1 : p1 <;> by_cases h2 : p2 <;>
    simp only [h1, h2, if_true, if_false]
  by_cases hm1 : k1 ∈ st.2 <;> by_cases hm2 : k2 ∈ st.2 <;>
    simp [hm1, hm2, Finset.mem_insert, hk, hk.symm, Ne.symm hk,
      Finset.Insert.comm, add_right_comm]

theorem unbundleStep_43239 (codes : List String) (st : ℚ × Finset String) :
    Billing.unbundleStep codes st "43239" =
      Billing.bundleStep ("43236" ∈ codes) "43236-43239" 40
        (Billing.bundleStep ("43235" ∈ codes) "43235-43239" 40 st) := by
  unfold Billing.unbundleStep
  simp [Billing.CPT_CODES, Billing.getBundlingRiskWeight,
    (by decide : Billing.combinationKey "43239" "43235" = "43235-43239"),
    (by decide : Billing.combinationKey "43239" "43236" = "43236-43239")]

theorem unbundleStep_80053 (codes : List String) (st : ℚ × Finset String) :
    Billing.unbundleStep codes st "80053" =
      Billing.bundleStep ("80076" ∈ codes) "80053-80076" 25
        (Billing.bundleStep ("80048" ∈ codes) "80048-80053" 25 st) := by
  unfold Billing.unbundleStep
  simp [Billing.CPT_CODES, Billing.getBundlingRiskWeight,
    (by decide : Billing.combinationKey "80053" "80048" = "80048-80053"),
    (by decide : Billing.combinationKey "80053" "80076" = "80053-80076")]

theorem unbundleStep_71020 (codes : List String) (st : ℚ × Finset String) :
    Billing.unbundleStep codes st "71020" =
      Billing.bundleStep ("71010" ∈ codes) "71010-71020" 10 st := by
  unfold Billing.unbundleStep
  simp [Billing.CPT_CODES, Billing.getBundlingRiskWeight,
    (by decide : Billing.combinationKey "71020" "71010" = "71010-71020")]

theorem unbundleStep_inactive (codes : List String) (x : String)
    (h : ∀ cpt, Billing.CPT_CODES x = some cpt →
      cpt.bundlingRules.bundledCodes = [])
    (st : ℚ × Finset String) :
    Billing.unbundleStep codes st x = st := by
  unfold Billing.unbundleStep
  cases hc : Billing.CPT_CODES x with
  | none => rfl
  | some cpt => simp [h cpt hc]

theorem cpt_active_cases (x : String) :
    (∀ cpt, Billing.CPT_CODES x = some cpt →
      cpt.bundlingRules.bundledCodes = []) ∨
    x = "43239" ∨ x = "80053" ∨ x = "71020" := by
  by_cases h1 : x = "43239"
  · exact Or.inr (Or.inl h1)
  by_cases h2 : x = "80053"
  · exact Or.inr (Or.inr (Or.inl h2))
  by_cases h3 : x = "71020"
  · exact Or.inr (Or.inr (Or.inr h3))
  left
  intro cpt hcpt
  unfold Billing.CPT_CODES at hcpt
  split at hcpt
  · cases hcpt; rfl
  · cases hcpt; rfl
  · cases hcpt; rfl
  · exact absurd rfl h1
  · exact absurd rfl h2
  · exact absurd rfl h3
  · cases hcpt

theorem unbundleStep_comm_pair_43239_80053 (codes : List String)
    (st : ℚ × Finset String) :
    Billing.unbundleStep codes (Billing.unbundleStep codes st "43239") "80053" =
      Billing.unbundleStep codes
        (Billing.unbundleStep codes st "80053") "43239" := by
  simp only [unbundleStep_43239, unbundleStep_80053]
  rw [bundleStep_comm (show ("80048-80053" : String) ≠ "43236-43239" by decide)]
  rw [bundleStep_comm (show ("80053-80076" : String) ≠ "43236-43239" by decide)]
  rw [bundleStep_comm (show ("80048-80053" : String) ≠ "43235-43239" by decide)]
  rw [bundleStep_comm (show ("80053-80076" : String) ≠ "43235-43239" by decide)]

theorem unbundleStep_comm_pair_43239_71020 (codes : List String)
    (st : ℚ × Finset String) :
    Billing.unbundleStep codes (Billing.unbundleStep codes st "43239") "71020" =
      Billing.unbundleStep codes
        (Billing.unbundleStep codes st "71020") "43239" := by
  simp only [unbundleStep_43239, unbundleStep_71020]
  rw [bundleStep_comm (show ("71010-71020" : String) ≠ "43236-43239" by decide)]
  rw [bundleStep_comm (show ("71010-71020" : String) ≠ "43235-43239" by decide)]

theorem unbundleStep_comm_pair_80053_71020 (codes : List String)
    (st : ℚ × Finset String) :
    Billing.unbundleStep codes (Billing.unbundleStep codes st "80053") "71020" =
      Billing.unbundleStep codes
        (Billing.unbundleStep codes st "71020") "80053" := by
  simp only [unbundleStep_80053, unbundleStep_71020]
  rw [bundleStep_comm (show ("71010-71020" : String) ≠ "80053-80076" by decide)]
  rw [bundleStep_comm (show ("71010-71020" : String) ≠ "80048-80053" by decide)]

theorem unbundleStep_comm (codes : List String) (x y : String)
    (st : ℚ × Finset String) :
    Billing.unbundleStep codes (Billing.unbundleStep codes st x) y =
      Billing.unbundleStep codes (Billing.unbundleStep codes st y) x := by
  rcases cpt_active_cases x with hx | hx | hx | hx
  · rw [unbundleStep_inactive codes x hx,
      unbundleStep_inactive codes x hx]
  · subst hx
    rcases cpt_active_cases y with hy | hy | hy | hy
    · rw [unbundleStep_inactive codes y hy, unbundleStep_inactive codes y hy]
    · subst hy; rfl
    · subst hy; exact unbundleStep_comm_pair_43239_80053 codes st
    · subst hy; exact unbundleStep_comm_pair_43239_71020 codes st
  · subst hx
    rcases cpt_active_cases y with hy | hy | hy | hy
    · rw [unbundleStep_inactive codes y hy, unbundleStep_inactive codes y hy]
    · subst hy; exact (unbundleStep_comm_pair_43239_80053 codes st).symm
    · subst hy; rfl
    · subst hy; exact unbundleStep_comm_pair_80053_71020 codes st
  · subst hx
    rcases cpt_active_cases y with hy | hy | hy | hy
    · rw [unbundleStep_inactive codes y hy, unbundleStep_inactive codes y hy]
    · subst hy; exact (unbundleStep_comm_pair_43239_71020 codes st).symm
    · subst hy; exact (unbundleStep_comm_pair_80053_71020 codes st).symm
    · subst hy; rfl

theorem unbundleStep_mem_congr (l1 l2 : List String) (h : l1.Perm l2) :
    Billing.unbundleStep l1 = Billing.unbundleStep l2 := by
  funext st code
  unfold Billing.unbundleStep
  cases Billing.CPT_CODES code with
  | none => rfl
  | some cpt =>
    show cpt.bundlingRules.bundledCodes.foldl
        (fun st' bundledCode =>
          Billing.bundleStep (bundledCode ∈ l1)
            (Billing.combinationKey code bundledCode)
            (Billing.getBundlingRiskWeight cpt.bundlingRules.unbundlingRisk)
            st') st =
      cpt.bundlingRules.bundledCodes.foldl
        (fun st' bundledCode =>
          Billing.bundleStep (bundledCode ∈ l2)
            (Billing.combinationKey code bundledCode)
            (Billing.getBundlingRiskWeight cpt.bundlingRules.unbundlingRisk)
            st') st
    generalize cpt.bundlingRules.bundledCodes = bs
    induction bs generalizing st with
    | nil => rfl
    | cons b bs ih =>
      simp only [List.foldl_cons]
      rw [bundleStep_congr h.mem_iff]
      exact ih _

theorem checkUnbundlingRisk_perm (l1 l2 : List String) (h : l1.Perm l2) :
    Billing.checkUnbundlingRisk l1 = Billing.checkUnbundlingRisk l2 := by
  unfold Billing.checkUnbundlingRisk
  rw [unbundleStep_mem_congr l1 l2 h]
  rw [h.foldl_eq' (fun x _ y _ st => unbundleStep_comm l2 x y st) (0, ∅)]

/-- Claim C5: `validateCodeCombination` is order-independent — on any
permutation of the submitted procedure codes it returns the same validity
flag, the same warnings and the same risk score. -/
theorem claim_C5 (l1 l2 : List String) (h : l1.Perm l2) :
    Billing.validateCodeCombination l1 = Billing.validateCodeCombination l2 := by
  unfold Billing.validateCodeCombination
  have hfun : (fun code => decide (code ∈ l1)) =
      (fun code => decide (code ∈ l2)) :=
    funext fun _ => decide_eq_decide.2 h.mem_iff
  simp only [hfun, checkUnbundlingRisk_perm l1 l2 h]

/-- Witness for C5 on a concrete transposition. -/
theorem claim_C5_witness :
    (["80053", "80048"] : List String).Perm ["80048", "80053"] ∧
    Billing.validateCodeCombination ["80053", "80048"] =
      Billing.validateCodeCombination ["80048", "80053"] :=
  ⟨List.Perm.swap "80048" "80053" [],
    claim_C5 _ _ (List.Perm.swap "80048" "80053" [])⟩

theorem strongTo_symm {conns : List Network.ProviderConnection} {a b : String}
    (h : Network.StrongTo conns a b) : Network.StrongTo conns b a := by
  obtain ⟨c, hc, hs, hd⟩ := h
  exact ⟨c, hc, hs, hd.symm⟩

theorem pushesOf_mem (conns : List Network.ProviderConnection)
    (visited : Finset String) (currentId : String) (id : String)
    (hid : id ∈ Network.pushesOf conns visited currentId) :
    id ∉ visited ∧
    ∃ c ∈ conns, c.strength > 30 ∧
      ((c.provider1Id = currentId ∧ c.provider2Id = id) ∨
       (c.provider1Id = id ∧ c.provider2Id = currentId)) := by
  unfold Network.pushesOf at hid
  obtain ⟨c, hc, hoe⟩ := List.mem_map.1 hid
  have h2 := List.mem_filter.1 hc
  have h1 := List.mem_filter.1 h2.1
  have hcond := h2.2
  simp only [Bool.and_eq_true, decide_eq_true_eq] at hcond
  have hinc := h1.2
  unfold Network.incident at hinc
  simp only [Bool.or_eq_true, decide_eq_true_eq] at hinc
  unfold Network.otherEnd at hoe hcond
  by_cases hp1 : c.provider1Id = currentId
  · rw [if_pos hp1] at hoe hcond
    exact ⟨hoe ▸ hcond.1, c, h1.1, hcond.2, Or.inl ⟨hp1, hoe⟩⟩
  · rw [if_neg hp1] at hoe hcond
    have hp2 : c.provider2Id = currentId := by
      rcases hinc with h | h
      · exact absurd h hp1
      · exact h
    exact ⟨hoe ▸ hcond.1, c, h1.1, hcond.2, Or.inr ⟨hoe, hp2⟩⟩

theorem pushesOf_strong (conns : List Network.ProviderConnection)
    (visited : Finset String) (currentId : String) (id : String)
    (hid : id ∈ Network.pushesOf conns visited currentId) :
    Network.StrongTo conns id currentId := by
  obtain ⟨_, c, hc, hs, hd⟩ := pushesOf_mem conns visited currentId id hid
  rcases hd with ⟨ha, hb⟩ | ⟨ha, hb⟩
  · exact ⟨c, hc, hs, Or.inr ⟨ha, hb⟩⟩
  · exact ⟨c, hc, hs, Or.inl ⟨ha, hb⟩⟩

theorem pushesOf_node (allP : List Network.ProviderNode)
    (conns : List Network.ProviderConnection)
    (hEnds : Network.EndpointsAreNodes allP conns)
    (visited : Finset String) (currentId : String) (id : String)
    (hid : id ∈ Network.pushesOf conns visited currentId) :
    Network.NodeFor allP id := by
  obtain ⟨_, c, hc, _, hd⟩ := pushesOf_mem conns visited currentId id hid
  rcases hd with ⟨_, hb⟩ | ⟨ha, _⟩
  · exact hb ▸ (hEnds c hc).2
  · exact ha ▸ (hEnds c hc).1

theorem loop_preserves (allP : List Network.ProviderNode)
    (conns : List Network.ProviderConnection) (start : String)
    (hEnds : Network.EndpointsAreNodes allP conns) :
    ∀ (fuel : ℕ) (st : Network.ClusterState),
      Network.LoopInv allP conns start st →
      (∀ p ∈ (Network.buildClusterLoop allP conns fuel st).clusterProviders,
        p.id = start ∨
        ∃ q ∈ (Network.buildClusterLoop allP conns fuel st).clusterProviders,
          Network.StrongTo conns p.id q.id ∧ q.id ≠ p.id) ∧
      (2 ≤ (Network.buildClusterLoop allP conns fuel st).clusterProviders.length →
        ∃ q ∈ (Network.buildClusterLoop allP conns fuel st).clusterProviders,
          Network.StrongTo conns start q.id ∧ q.id ≠ start) := by
  intro fuel
  induction fuel with
  | zero =>
    intro st h
    exact ⟨h.2.2.1, h.2.2.2.1⟩
  | succ n ih =>
    intro st h
    obtain ⟨tp, visited, processed, cp, cc⟩ := st
    obtain ⟨hA, hB, hC, hD, hE, hF⟩ := h
    cases tp with
    | nil =>
      simp only [Network.buildClusterLoop]
      exact ⟨hC, hD⟩
    | cons currentId rest =>
      simp only [Network.buildClusterLoop]
      by_cases hskip : currentId ∈ visited ∨ currentId ∈ processed
      · rw [if_pos hskip]
        by_cases hcp : cp = []
        · obtain ⟨htp, hv, hpr⟩ := hE hcp
          have hcs : currentId = start := by
            injection htp
          rcases hskip with hs | hs
          · exact absurd (hcs ▸ hs) hv
          · exact absurd (hcs ▸ hs) hpr
        · apply ih
          refine ⟨?_, ?_, hC, hD, fun hc => absurd hc hcp, hF⟩
          · intro id hid
            exact hA id (List.mem_cons_of_mem _ hid)
          · intro id hid
            rcases hB id (List.mem_cons_of_mem _ hid) with hw | ⟨_, hnil⟩
            · exact Or.inl hw
            · exact absurd hnil hcp
      · rw [if_neg hskip]
        have hnode := hA currentId (List.mem_cons_self _ _)
        obtain ⟨pn, hpn, hpnid⟩ := hnode
        have hfind : ∃ p0, (allP.find? (fun p => p.id = currentId)) = some p0 := by
          have hs : (allP.find? (fun p => p.id = currentId)).isSome := by
            rw [List.find?_isSome]
            exact ⟨pn, hpn, by simp [hpnid]⟩
          exact Option.isSome_iff_exists.mp hs
        obtain ⟨p0, hp0⟩ := hfind
        have hp0id : p0.id = currentId := by
          simpa using List.find?_some hp0
        rw [hp0]
        apply ih
        by_cases hcp : cp = []
        · obtain ⟨htp, _, _⟩ := hE hcp
          have hcs : currentId = start := by injection htp
          have hrest : rest = [] := by injection htp
          subst hcp hrest
          refine ⟨?_, ?_, ?_, ?_, ?_, ?_⟩
          · intro id hid
            simp only [List.append_nil, List.mem_reverse] at hid
            exact pushesOf_node allP conns hEnds _ _ id hid
          · intro id hid
            simp only [List.append_nil, List.mem_reverse] at hid
            refine Or.inl ⟨p0, by simp, ?_, ?_⟩
            · rw [hp0id]
              exact pushesOf_strong conns _ _ id hid
            · rw [hp0id]
              intro hq
              have := (pushesOf_mem conns _ _ id hid).1
              rw [← hq] at this
              exact this (Finset.mem_insert_self _ _)
          · intro p hp
            simp only [List.nil_append, List.mem_singleton] at hp
            subst hp
            exact Or.inl (hp0id.trans hcs)
          · intro hlen
            simp at hlen
          · intro hne
            simp at hne
          · intro _
            exact ⟨p0, by simp, hp0id.trans hcs⟩
        · have hwit : ∃ m ∈ cp,
              Network.StrongTo conns currentId m.id ∧ m.id ≠ currentId := by
            rcases hB currentId (List.mem_cons_self _ _) with hw | ⟨_, hnil⟩
            · exact hw
            · exact absurd hnil hcp
          obtain ⟨m, hm, hstrong, hmne⟩ := hwit
          refine ⟨?_, ?_, ?_, ?_, ?_, ?_⟩
          · intro id hid
            rcases List.mem_append.1 hid with hid | hid
            · rw [List.mem_reverse] at hid
              exact pushesOf_node allP conns hEnds _ _ id hid
            · exact hA id (List.mem_cons_of_mem _ hid)
          · intro id hid
            rcases List.mem_append.1 hid with hid | hid
            · rw [List.mem_reverse] at hid
              refine Or.inl ⟨p0, List.mem_append_right _ (by simp), ?_, ?_⟩
              · rw [hp0id]
                exact pushesOf_strong conns _ _ id hid
              · rw [hp0id]
                intro hq
                have := (pushesOf_mem conns _ _ id hid).1
                rw [← hq] at this
                exact this (Finset.mem_insert_self _ _)
            · rcases hB id (List.mem_cons_of_mem _ hid) with
                ⟨m', hm', hs', hne'⟩ | ⟨_, hnil⟩
              · exact Or.inl ⟨m', List.mem_append_left _ hm', hs', hne'⟩
              · exact absurd hnil hcp
          · intro p hp
            rcases List.mem_append.1 hp with hp | hp
            · rcases hC p hp with hps | ⟨q, hq, hs', hne'⟩
              · exact Or.inl hps
              · exact Or.inr ⟨q, List.mem_append_left _ hq, hs', hne'⟩
            · rw [List.mem_singleton] at hp
              subst hp
              refine Or.inr ⟨m, List.mem_append_left _ hm, ?_, ?_⟩
              · rw [hp0id]
                exact hstrong
              · rw [hp0id]
                exact hmne
          · intro hlen
            rw [List.length_append, List.length_singleton] at hlen
            by_cases h2 : 2 ≤ cp.length
            · obtain ⟨q, hq, hs', hne'⟩ := hD h2
              exact ⟨q, List.mem_append_left _ hq, hs', hne'⟩
            · have hl1 : cp.length = 1 := by
                have := List.length_pos.2 hcp
                omega
              obtain ⟨a, ha⟩ := List.length_eq_one.mp hl1
              subst ha
              obtain ⟨ms, hms, hmsid⟩ := hF (by simp)
              rw [List.mem_singleton] at hm hms
              subst hm
              rw [hms] at hmsid
              refine ⟨p0, List.mem_append_right _ (by simp), ?_, ?_⟩
              · rw [hp0id, ← hmsid]
                exact strongTo_symm hstrong
              · rw [hp0id, ← hmsid]
                exact fun hc => hmne hc.symm
          · intro hne
            simp at hne
          · intro _
            obtain ⟨ms, hms, hmsid⟩ := hF hcp
            exact ⟨ms, List.mem_append_left _ hms, hmsid⟩

theorem buildCluster_sound (allP : List Network.ProviderNode)
    (conns : List Network.ProviderConnection)
    (startProvider : Network.ProviderNode) (processed : Finset String)
    (processedOut : Finset String) (cluster : Network.NetworkCluster)
    (hEnds : Network.EndpointsAreNodes allP conns)
    (hstart : Network.NodeFor allP startProvider.id)
    (hproc : startProvider.id ∉ processed)
    (heq : Network.buildCluster startProvider allP conns processed =
      (processedOut, some cluster)) :
    ∀ p ∈ cluster.providers, ∃ q ∈ cluster.providers,
      q.id ≠ p.id ∧ ∃ c ∈ conns, c.strength > 30 ∧
        ((c.provider1Id = p.id ∧ c.provider2Id = q.id) ∨
         (c.provider1Id = q.id ∧ c.provider2Id = p.id)) := by
  simp only [Network.buildCluster] at heq
  by_cases hlen : (Network.buildClusterLoop allP conns
      (Network.clusterFuel conns)
      ⟨[startProvider.id], ∅, processed, [], []⟩).clusterProviders.length < 2
  · rw [if_pos hlen] at heq
    simp at heq
  · rw [if_neg hlen] at heq
    have hcl : cluster = Network.mkCluster
        (Network.buildClusterLoop allP conns (Network.clusterFuel conns)
          ⟨[startProvider.id], ∅, processed, [], []⟩).clusterProviders
        (Network.buildClusterLoop allP conns (Network.clusterFuel conns)
          ⟨[startProvider.id], ∅, processed, [], []⟩).clusterConnections := by
      have := congrArg Prod.snd heq
      simpa using this.symm
    have hproviders : cluster.providers =
        (Network.buildClusterLoop allP conns (Network.clusterFuel conns)
          ⟨[startProvider.id], ∅, processed, [], []⟩).clusterProviders := by
      rw [hcl]
      rfl
    have hinv : Network.LoopInv allP conns startProvider.id
        ⟨[startProvider.id], ∅, processed, [], []⟩ := by
      refine ⟨?_, ?_, ?_, ?_, ?_, ?_⟩
      · intro id hid
        rw [List.mem_singleton] at hid
        subst hid
        exact hstart
      · intro id hid
        rw [List.mem_singleton] at hid
        subst hid
        exact Or.inr ⟨rfl, rfl⟩
      · intro p hp
        exact absurd hp (List.not_mem_nil p)
      · intro h2
        simp at h2
      · intro _
        exact ⟨rfl, Finset.not_mem_empty _, hproc⟩
      · intro hne
        exact absurd rfl hne
    have hres := loop_preserves allP conns startProvider.id hEnds
      (Network.clusterFuel conns) _ hinv
    intro p hp
    rw [hproviders] at hp
    have hlen2 : 2 ≤ (Network.buildClusterLoop allP conns
        (Network.clusterFuel conns)
        ⟨[startProvider.id], ∅, processed, [], []⟩).clusterProviders.length := by
      omega
    rcases hres.1 p hp with hps | ⟨q, hq, hstrong, hqne⟩
    · obtain ⟨q, hq, hstrong, hqne⟩ := hres.2 hlen2
      obtain ⟨c, hc, hcs, hdisj⟩ := hstrong
      refine ⟨q, by rw [hproviders]; exact hq, by rw [hps]; exact hqne,
        c, hc, hcs, ?_⟩
      rw [hps]
      exact hdisj
    · obtain ⟨c, hc, hcs, hdisj⟩ := hstrong
      exact ⟨q, by rw [hproviders]; exact hq, hqne, c, hc, hcs, hdisj⟩

theorem identifyFold_sound (nodes : List Network.ProviderNode)
    (conns : List Network.ProviderConnection)
    (hEnds : Network.EndpointsAreNodes nodes conns) :
    ∀ (l : List Network.ProviderNode), (∀ x ∈ l, x ∈ nodes) →
    ∀ (acc : Finset String × List Network.NetworkCluster),
      (∀ cl ∈ acc.2, ∀ p ∈ cl.providers, ∃ q ∈ cl.providers,
        q.id ≠ p.id ∧ ∃ c ∈ conns, c.strength > 30 ∧
          ((c.provider1Id = p.id ∧ c.provider2Id = q.id) ∨
           (c.provider1Id = q.id ∧ c.provider2Id = p.id))) →
      ∀ cl ∈ (l.foldl
        (fun (st : Finset String × List Network.NetworkCluster) provider =>
          if provider.id ∈ st.1 then st
          else
            match Network.buildCluster provider nodes conns st.1 with
            | (processed', some cluster) =>
                if cluster.clusterRiskScore > 60 then
                  (processed', st.2 ++ [cluster])
                else (processed', st.2)
            | (processed', none) => (processed', st.2)) acc).2,
        ∀ p ∈ cl.providers, ∃ q ∈ cl.providers,
          q.id ≠ p.id ∧ ∃ c ∈ conns, c.strength > 30 ∧
            ((c.provider1Id = p.id ∧ c.provider2Id = q.id) ∨
             (c.provider1Id = q.id ∧ c.provider2Id = p.id)) := by
  intro l
  induction l with
  | nil =>
    intro _ acc hacc
    simpa using hacc
  | cons x xs ih =>
    intro hl acc hacc
    simp only [List.foldl_cons]
    apply ih (fun y hy => hl y (List.mem_cons_of_mem _ hy))
    by_cases hxin : x.id ∈ acc.1
    · rw [if_pos hxin]
      exact hacc
    · rw [if_neg hxin]
      rcases hbc : Network.buildCluster x nodes conns acc.1 with
        ⟨processed', oc⟩
      cases oc with
      | none =>
        simpa using hacc
      | some cluster =>
        by_cases hrisk : cluster.clusterRiskScore > 60
        · intro cl hcl
          simp only [hrisk, if_true, List.mem_append, List.mem_singleton] at hcl
          rcases hcl with hcl | hcl
          · exact hacc cl hcl
          · subst hcl
            exact buildCluster_sound nodes conns x acc.1 processed' cl hEnds
              ⟨x, hl x (List.mem_cons_self _ _), rfl⟩ hxin hbc
        · intro cl hcl
          refine hacc cl ?_
          simpa [hrisk] using hcl

/-- Claim C8: whenever every connection's endpoints name analyzed provider
nodes (as `analyzeProviderNetwork` guarantees by construction), every
provider inside any returned `NetworkCluster` is joined to ANOTHER member of
the same cluster by a connection of strength above 30; in particular a
provider none of whose connections has strength above 30 never appears in a
returned cluster, and singleton clusters are discarded. -/
theorem claim_C8 (nodes : List Network.ProviderNode)
    (conns : List Network.ProviderConnection)
    (hEnds : Network.EndpointsAreNodes nodes conns) :
    ∀ cluster ∈ Network.identifySuspiciousClusters nodes conns,
      ∀ p ∈ cluster.providers,
        ∃ q ∈ cluster.providers, q.id ≠ p.id ∧
          ∃ c ∈ conns, c.strength > 30 ∧
            ((c.provider1Id = p.id ∧ c.provider2Id = q.id) ∨
             (c.provider1Id = q.id ∧ c.provider2Id = p.id)) := by
  unfold Network.identifySuspiciousClusters
  exact identifyFold_sound nodes conns hEnds nodes (fun _ hx => hx) (∅, [])
    (by simp)

/-- Witness for C8 on a two-node network joined by one strength-40
connection. -/
theorem claim_C8_witness :
    Network.EndpointsAreNodes [Examples.nodeA, Examples.nodeB]
      [Examples.connAB] ∧
    (∀ cluster ∈ Network.identifySuspiciousClusters
        [Examples.nodeA, Examples.nodeB] [Examples.connAB],
      ∀ p ∈ cluster.providers,
        ∃ q ∈ cluster.providers, q.id ≠ p.id ∧
          ∃ c ∈ [Examples.connAB], c.strength > 30 ∧
            ((c.provider1Id = p.id ∧ c.provider2Id = q.id) ∨
             (c.provider1Id = q.id ∧ c.provider2Id = p.id))) := by
  have hEnds : Network.EndpointsAreNodes [Examples.nodeA, Examples.nodeB]
      [Examples.connAB] := by
    intro c hc
    rw [List.mem_singleton] at hc
    subst hc
    exact ⟨⟨Examples.nodeA, by simp, by decide⟩,
      ⟨Examples.nodeB, by simp, by decide⟩⟩
  exact ⟨hEnds, claim_C8 _ _ hEnds⟩

/-- Witness for C4 at the counterexample's concrete inputs. -/
theorem claim_C4_witness :
    ((1 : ℚ)/2 ≤ 7/10) ∧
    ((Upcoding.detectUpcodingPatterns [Examples.uclaim99215High]
      (Upcoding.profileWithFrequency "prov-1" 4.5 [] Examples.benchGP
        (1/2))).Sublist
      (Upcoding.detectUpcodingPatterns [Examples.uclaim99215High]
        (Upcoding.profileWithFrequency "prov-1" 4.5 [] Examples.benchGP
          (7/10))) ∧
    ((Upcoding.calculateRiskMetrics (Upcoding.detectUpcodingPatterns
        [Examples.uclaim99215High]
        (Upcoding.profileWithFrequency "prov-1" 4.5 [] Examples.benchGP
          (1/2)))).1 > 60 →
      (Upcoding.calculateRiskMetrics (Upcoding.detectUpcodingPatterns
        [Examples.uclaim99215High]
        (Upcoding.profileWithFrequency "prov-1" 4.5 [] Examples.benchGP
          (7/10)))).1 > 60)) :=
  ⟨by norm_num,
    claim_C4 [Examples.uclaim99215High] "prov-1" 4.5 [] Examples.benchGP
      (1/2) (7/10) (by norm_num)⟩

end Albitros
